import Mathlib

/-!
# Verification of the minecraftCVcontroller gesture-control core

Shallow embedding of the repository's core components and proofs of the
specification claims about them.

Embedded source files:
* `src/utils/state_manager.py`   (`GestureStateManager`, the temporal landmark store)
* `src/controls/keyboard_mouse.py` (`GameController` / `MinecraftController`)
* `src/utils/action_coordinator.py` (`ActionCoordinator`)
* `src/gestures/attack.py`, `src/gestures/mining.py`, `src/gestures/shield.py`,
  `src/gestures/movement.py`, `src/gestures/menuclose.py`

Conventions of the embedding:
* Python floats become `ℚ`; all thresholds from the source are exact decimal
  literals, so no rounding is involved.
* `numpy` square roots (`np.linalg.norm`, used only to produce scalar distance
  values) are embedded by `ratSqrt`, the exact rational square root, which agrees
  with the float computation on every input whose root is rational; every concrete
  input used in a theorem below has a rational norm.
* Python `dict`s of named landmarks become association lists; Python `set`s of
  key/button names become duplicate-free `List String` maintained by
  insert-if-absent / remove-all.
* The landmark history deque is kept most-recent-first (`update` prepends and
  truncates to the capacity), so Python's `history[-(offset+1)]` is `get? offset`.
* Calls into the external actuator (pynput) are recorded as values of an
  explicit `Call` type; the actuator itself is assumed not to raise, matching
  the source's `try/except` wrappers that only print on failure.
* Stateful detectors become functions `state → input → result × state`, where
  the per-frame input is either the embedded store itself (attack, shield,
  movement, menuclose) or, for the mining detector, the record of the numeric
  query results (`np.linalg.norm` of the wrist velocity, the forearm-axis
  projection, the fingertip-spread area, the oscillation test) that
  `MiningDetector.detect` reads from the store and numpy each frame.
-/

set_option linter.unusedVariables false

namespace MCC

/-- Exact rational square root: the unique nonnegative rational root when one
exists, and `0` otherwise.  Stand-in for the float `sqrt` used by
`np.linalg.norm`; it agrees with the source on all inputs whose root is
rational, which covers every concrete input appearing in the theorems. -/
def ratSqrt (q : ℚ) : ℚ :=
  if Rat.sqrt q * Rat.sqrt q = q then Rat.sqrt q else 0

/-- A 3-d point/vector `(x, y, z)` of rational coordinates. -/
abbrev Vec3 := ℚ × ℚ × ℚ

/-- Componentwise subtraction of two vectors. -/
def vsub (a b : Vec3) : Vec3 := (a.1 - b.1, a.2.1 - b.2.1, a.2.2 - b.2.2)

/-- Division of a vector by a scalar, componentwise. -/
def vdivQ (a : Vec3) (q : ℚ) : Vec3 := (a.1 / q, a.2.1 / q, a.2.2 / q)

/-- Scaling of a vector by a natural number. -/
def vnsmul (n : Nat) (a : Vec3) : Vec3 := ((n : ℚ) * a.1, (n : ℚ) * a.2.1, (n : ℚ) * a.2.2)

/-- `np.linalg.norm` of a 3-vector (via `ratSqrt`, see its doc). -/
def norm3 (v : Vec3) : ℚ := ratSqrt (v.1 * v.1 + v.2.1 * v.2.1 + v.2.2 * v.2.2)

/-- `np.sign` on rationals, valued in `Int`. -/
def sgn (q : ℚ) : Int := if q > 0 then 1 else if q < 0 then -1 else 0

/-- One named landmark entry of a frame dictionary: name, normalized
coordinates and visibility confidence (`src/cv/pose_tracking.py` output). -/
structure Landmark where
  name : String
  x : ℚ
  y : ℚ
  z : ℚ
  visibility : ℚ
deriving DecidableEq

/-- One frame's landmark dictionary as produced by `get_landmarks`: the
optional `pose`, `left_hand` and `right_hand` groups. -/
structure LandmarksDict where
  pose : Option (List Landmark) := none
  left_hand : Option (List Landmark) := none
  right_hand : Option (List Landmark) := none
deriving DecidableEq

/-- A possibly-absent landmark group, as the Python truthiness test
`if landmarks.get('pose'):` sees it: `None` and the empty list coincide. -/
def groupLandmarks (g : Option (List Landmark)) : List Landmark := g.getD []

/-- Linear search of a landmark list for the first entry with the given name
(the `for landmark in ...: if landmark.get('name') == ...` loops). -/
def findLandmark : List Landmark → String → Option Vec3
  | [], _ => none
  | lm :: rest, nm => if lm.name = nm then some (lm.x, lm.y, lm.z) else findLandmark rest nm

/-- Python's `needle in hay` on strings, on the underlying character lists. -/
def charsContain (needle : List Char) : List Char → Bool
  | [] => needle.isEmpty
  | c :: rest => needle.isPrefixOf (c :: rest) || charsContain needle rest

/-- Python's substring test `needle in hay`. -/
def strContains (hay needle : String) : Bool := charsContain needle.data hay.data

/-- Python's `str.lower()`, character by character. -/
def strToLower (s : String) : String := String.mk (s.data.map Char.toLower)

/-- `GestureStateManager` (`src/utils/state_manager.py`).  The landmark
history is most-recent-first; `fps` and `history_size` are the constructor
arguments (defaults 30/30). -/
structure GestureStateManager where
  history_size : Nat := 30
  fps : ℚ := 30
  landmark_history : List LandmarksDict := []
  timestamps : List ℚ := []
  last_update_time : Option ℚ := none
deriving DecidableEq

namespace GestureStateManager

/-- `self.dt = 1.0 / fps`. -/
def dt (sm : GestureStateManager) : ℚ := 1 / sm.fps

/-- `GestureStateManager.update`: append the snapshot and its timestamp when
present (evicting the oldest beyond capacity), record the wall-clock time
either way.  `now` is the sampled `time.time()`. -/
def update (sm : GestureStateManager) (landmarks_dict : Option LandmarksDict) (now : ℚ) :
    GestureStateManager :=
  match landmarks_dict with
  | some d =>
      { sm with
        landmark_history := (d :: sm.landmark_history).take sm.history_size
        timestamps := (now :: sm.timestamps).take sm.history_size
        last_update_time := some now }
  | none => { sm with last_update_time := some now }

/-- The hand-group fallback of `get_landmark_position`: for each of
`left_hand`, `right_hand`, if the first piece of the group name
(`hand_type.split('_')[0]`, i.e. `"left"` / `"right"`) occurs in the
lowercased landmark name and the group is present, search it. -/
def handLookup (landmarks : LandmarksDict) (landmark_name : String) : Option Vec3 :=
  let tryHand := fun (part : String) (g : Option (List Landmark)) =>
    if strContains (strToLower landmark_name) part then
      findLandmark (groupLandmarks g) landmark_name
    else none
  match tryHand "left" landmarks.left_hand with
  | some v => some v
  | none => tryHand "right" landmarks.right_hand

/-- `GestureStateManager.get_landmark_position`: the named landmark in the
frame `frame_offset` frames before the current one, from the pose group
first, then the hand groups; `none` when the offset exceeds the history or
the landmark is absent. -/
def get_landmark_position (sm : GestureStateManager) (landmark_name : String)
    (frame_offset : Nat := 0) : Option Vec3 :=
  match sm.landmark_history.get? frame_offset with
  | none => none
  | some landmarks =>
      match findLandmark (groupLandmarks landmarks.pose) landmark_name with
      | some v => some v
      | none => handLookup landmarks landmark_name

/-- `GestureStateManager.get_velocity`: `(position(name,0) −
position(name,window−1)) / (dt·(window−1))`, `none` when the history is
shorter than the window or either endpoint is absent. -/
def get_velocity (sm : GestureStateManager) (landmark_name : String)
    (window_size : Nat := 3) : Option Vec3 :=
  if sm.landmark_history.length < window_size then none
  else
    match sm.get_landmark_position landmark_name 0,
          sm.get_landmark_position landmark_name (window_size - 1) with
    | some current_pos, some past_pos =>
        some (vdivQ (vsub current_pos past_pos) (sm.dt * ((window_size : ℚ) - 1)))
    | _, _ => none

/-- `GestureStateManager.get_landmark_distance`: Euclidean distance between
two current-frame landmarks, `none` if either is missing. -/
def get_landmark_distance (sm : GestureStateManager) (landmark1 landmark2 : String) :
    Option ℚ :=
  match sm.get_landmark_position landmark1, sm.get_landmark_position landmark2 with
  | some pos1, some pos2 => some (norm3 (vsub pos1 pos2))
  | _, _ => none

/-- The body of the direction-change count inside `is_oscillating` at index
`i` of the collected y-positions: the previous delta must exceed the
threshold in magnitude, its sign must differ from the next delta's sign, and
must be nonzero.  Out-of-range defaulted reads never occur at the call site
(indices range over `[1, len-2]`). -/
def revAt (ys : List ℚ) (threshold : ℚ) (i : Nat) : Bool :=
  let yPrev := ys.getD (i - 1) 0
  let yCur := ys.getD i 0
  let yNext := ys.getD (i + 1) 0
  if |yCur - yPrev| > threshold then
    decide (sgn (yCur - yPrev) ≠ sgn (yNext - yCur) ∧ sgn (yCur - yPrev) ≠ 0)
  else false

/-- The `for i in range(1, len(y_positions) - 1)` counting loop of
`is_oscillating`. -/
def countDirectionChanges (ys : List ℚ) (threshold : ℚ) : Nat :=
  (List.range' 1 (ys.length - 2)).countP (revAt ys threshold)

/-- `GestureStateManager.is_oscillating`: false when the history is shorter
than the window; collect the present positions over the window (skipping
absent frames), require at least `window/2` of them, and compare the
direction-change count of their y-coordinates against `min_peaks`. -/
def is_oscillating (sm : GestureStateManager) (landmark_name : String)
    (threshold : ℚ := 0.05) (window_size : Nat := 15) (min_peaks : Nat := 2) : Bool :=
  if sm.landmark_history.length < window_size then false
  else
    let positions := (List.range (min window_size sm.landmark_history.length)).filterMap
      (fun i => sm.get_landmark_position landmark_name i)
    if positions.length < window_size / 2 then false
    else
      let y_positions := positions.map (fun p => p.2.1)
      decide (min_peaks ≤ countDirectionChanges y_positions threshold)

end GestureStateManager

/-! ## `src/controls/keyboard_mouse.py` -/

/-- One call into the external pynput actuator. -/
inductive Call where
  | press_key_call (key_name : String)
  | release_key_call (key_name : String)
  | press_mouse_call (button_name : String)
  | release_mouse_call (button_name : String)
  | click_mouse_call (button_name : String) (count : Nat)
  | move_mouse_call (dx dy : Int)
  | scroll_mouse_call (dx dy : Int)
deriving DecidableEq

/-- Whether a call is a key release. -/
def Call.isReleaseKey : Call → Bool
  | .release_key_call _ => true
  | _ => false

/-- Python `set.add`: insert a name if absent (duplicate-free list). -/
def insertName (l : List String) (k : String) : List String :=
  if k ∈ l then l else l ++ [k]

/-- Python `set.discard`: remove every occurrence of a name. -/
def removeName (l : List String) (k : String) : List String :=
  l.filter (fun x => x ≠ k)

/-- `GameController` actuation state: the tracked sets of currently pressed
keys and mouse buttons. -/
structure GameController where
  pressed_keys : List String := []
  pressed_buttons : List String := []
deriving DecidableEq

namespace GameController

/-- `GameController.press_key`: no-op when already pressed, otherwise press
via the actuator and record the key. -/
def press_key (s : GameController) (key_name : String) : List Call × GameController :=
  if key_name ∈ s.pressed_keys then ([], s)
  else ([.press_key_call key_name],
        { s with pressed_keys := insertName s.pressed_keys key_name })

/-- `GameController.release_key`: no-op when not pressed, otherwise release
via the actuator and forget the key. -/
def release_key (s : GameController) (key_name : String) : List Call × GameController :=
  if key_name ∉ s.pressed_keys then ([], s)
  else ([.release_key_call key_name],
        { s with pressed_keys := removeName s.pressed_keys key_name })

/-- `GameController.tap_key`: press then release (the sleep in between has no
state effect). -/
def tap_key (s : GameController) (key_name : String) : List Call × GameController :=
  let r1 := s.press_key key_name
  let r2 := r1.2.release_key key_name
  (r1.1 ++ r2.1, r2.2)

/-- `GameController.press_mouse`: no-op when already pressed. -/
def press_mouse (s : GameController) (button_name : String := "left") :
    List Call × GameController :=
  if button_name ∈ s.pressed_buttons then ([], s)
  else ([.press_mouse_call button_name],
        { s with pressed_buttons := insertName s.pressed_buttons button_name })

/-- `GameController.release_mouse`: no-op when not pressed. -/
def release_mouse (s : GameController) (button_name : String := "left") :
    List Call × GameController :=
  if button_name ∉ s.pressed_buttons then ([], s)
  else ([.release_mouse_call button_name],
        { s with pressed_buttons := removeName s.pressed_buttons button_name })

/-- `GameController.click_mouse`: a click call, no tracked-state change. -/
def click_mouse (s : GameController) (button_name : String := "left") (count : Nat := 1) :
    List Call × GameController :=
  ([.click_mouse_call button_name count], s)

/-- The key-release loop of `release_all`, iterating over a snapshot of the
pressed-key set. -/
def releaseKeysLoop (s : GameController) : List String → List Call × GameController
  | [] => ([], s)
  | k :: rest =>
      let r1 := s.release_key k
      let r2 := r1.2.releaseKeysLoop rest
      (r1.1 ++ r2.1, r2.2)

/-- The button-release loop of `release_all`. -/
def releaseButtonsLoop (s : GameController) : List String → List Call × GameController
  | [] => ([], s)
  | b :: rest =>
      let r1 := s.release_mouse b
      let r2 := r1.2.releaseButtonsLoop rest
      (r1.1 ++ r2.1, r2.2)

/-- `GameController.release_all`: release every tracked key, then every
tracked button. -/
def release_all (s : GameController) : List Call × GameController :=
  let r1 := s.releaseKeysLoop s.pressed_keys
  let r2 := r1.2.releaseButtonsLoop r1.2.pressed_buttons
  (r1.1 ++ r2.1, r2.2)

/-- `GameController.get_pressed_keys`. -/
def get_pressed_keys (s : GameController) : List String := s.pressed_keys

/-- `GameController.get_pressed_buttons`. -/
def get_pressed_buttons (s : GameController) : List String := s.pressed_buttons

/-! `MinecraftController` helpers (subclass of `GameController`). -/

/-- `MinecraftController.move_forward` (W). -/
def move_forward (s : GameController) : List Call × GameController := s.press_key "w"

/-- `MinecraftController.move_backward` (S). -/
def move_backward (s : GameController) : List Call × GameController := s.press_key "s"

/-- `MinecraftController.move_left` (A). -/
def move_left (s : GameController) : List Call × GameController := s.press_key "a"

/-- `MinecraftController.move_right` (D). -/
def move_right (s : GameController) : List Call × GameController := s.press_key "d"

/-- `MinecraftController.stop_moving`: release W, A, S, D in order. -/
def stop_moving (s : GameController) : List Call × GameController :=
  let r1 := s.release_key "w"
  let r2 := r1.2.release_key "a"
  let r3 := r2.2.release_key "s"
  let r4 := r3.2.release_key "d"
  (r1.1 ++ r2.1 ++ r3.1 ++ r4.1, r4.2)

/-- `MinecraftController.jump`: tap Space. -/
def jump (s : GameController) : List Call × GameController := s.tap_key "space"

/-- `MinecraftController.open_inventory`: tap E. -/
def open_inventory (s : GameController) : List Call × GameController := s.tap_key "e"

/-- `MinecraftController.scroll_hotbar`. -/
def scroll_hotbar (s : GameController) (direction : Int) : List Call × GameController :=
  ([.scroll_mouse_call 0 direction], s)

end GameController

/-- The names of the methods defined on `GameController` in
`src/controls/keyboard_mouse.py` (Python attribute-lookup table). -/
def gameControllerMethodNames : List String :=
  ["__init__", "press_key", "release_key", "tap_key", "press_mouse", "release_mouse",
   "click_mouse", "move_mouse", "scroll_mouse", "release_all", "is_key_pressed",
   "is_mouse_pressed", "get_pressed_keys", "get_pressed_buttons"]

/-- The methods resolvable on a `MinecraftController` instance: its own
definitions plus the inherited `GameController` ones. -/
def minecraftControllerMethodNames : List String :=
  gameControllerMethodNames ++
  ["move_forward", "move_backward", "move_left", "move_right", "stop_moving", "jump",
   "start_sprint", "stop_sprint", "start_sneak", "stop_sneak", "attack", "start_mining",
   "stop_mining", "use_item", "start_using_item", "stop_using_item", "open_inventory",
   "drop_item", "select_hotbar_slot", "scroll_hotbar"]

/-! ## `src/utils/action_coordinator.py` -/

/-- The fields of a `movement` gesture result that `_handle_movement` reads
(`is_walking`, `left_thumb_back`, `torso_lean`). -/
structure MovementResult where
  is_walking : Bool := false
  left_thumb_back : Bool := false
  torso_lean : Option String := none
deriving DecidableEq

/-- `ActionCoordinator` state. -/
structure ActionCoordinator where
  controller : GameController := {}
  active_movement : Option String := none
  is_jumping : Bool := false
  is_sprinting : Bool := false
  is_sneaking : Bool := false
  left_hand_action : Option String := none
  right_hand_action : Option String := none
  current_mode : String := "gameplay"
deriving DecidableEq

namespace ActionCoordinator

/-- The movement key `_handle_movement` selects from a movement result
(the `torso_lean` / `left_thumb_back` / forward cascade). -/
def movementKeyFor (m : MovementResult) : String :=
  if m.torso_lean = some "left" then "a"
  else if m.torso_lean = some "right" then "d"
  else if m.left_thumb_back then "s"
  else "w"

/-- The `move_*` dispatch after a direction change in `_handle_movement`. -/
def pressMovementKey (g : GameController) (new_movement : String) :
    List Call × GameController :=
  if new_movement = "w" then g.move_forward
  else if new_movement = "s" then g.move_backward
  else if new_movement = "a" then g.move_left
  else if new_movement = "d" then g.move_right
  else ([], g)

/-- `ActionCoordinator._handle_movement`: stop all movement when the movement
result is absent; otherwise pick the direction key and, if it changed,
release the old movement via `stop_moving` before pressing the new key. -/
def handle_movement (ac : ActionCoordinator) (movement : Option MovementResult) :
    List Call × ActionCoordinator :=
  match movement with
  | none =>
      if ac.active_movement.isSome then
        let r := ac.controller.stop_moving
        (r.1, { ac with controller := r.2, active_movement := none })
      else ([], ac)
  | some m =>
      let new_movement := movementKeyFor m
      if some new_movement ≠ ac.active_movement then
        let r1 := ac.controller.stop_moving
        let r2 := pressMovementKey r1.2 new_movement
        (r1.1 ++ r2.1,
         { ac with controller := r2.2, active_movement := some new_movement })
      else ([], ac)

/-- `ActionCoordinator._enter_menu_mode`: no-op when already in menu mode;
otherwise release everything, optionally tap E, switch to menu mode, clear
the movement and hand-slot state. -/
def enter_menu_mode (ac : ActionCoordinator) (open_inventory : Bool := true) :
    List Call × ActionCoordinator :=
  if ac.current_mode = "menu" then ([], ac)
  else
    let r1 := ac.controller.release_all
    let r2 := if open_inventory then r1.2.open_inventory else ([], r1.2)
    (r1.1 ++ r2.1,
     { ac with
       controller := r2.2
       current_mode := "menu"
       active_movement := none
       left_hand_action := none
       right_hand_action := none
       is_jumping := false
       is_sprinting := false
       is_sneaking := false })

/-- `ActionCoordinator._exit_menu_mode`: release everything, tap Esc, and —
when the coordinator actually was in menu mode — return to gameplay mode and
clear the movement and hand-slot state. -/
def exit_menu_mode (ac : ActionCoordinator) : List Call × ActionCoordinator :=
  let was_in_menu := ac.current_mode = "menu"
  let r1 := ac.controller.release_all
  let r2 := r1.2.tap_key "esc"
  if was_in_menu then
    (r1.1 ++ r2.1,
     { ac with
       controller := r2.2
       current_mode := "gameplay"
       active_movement := none
       left_hand_action := none
       right_hand_action := none
       is_jumping := false
       is_sprinting := false
       is_sneaking := false })
  else (r1.1 ++ r2.1, { ac with controller := r2.2 })

/-- `ActionCoordinator.reset`: release everything and return every field to
its initial value. -/
def reset (ac : ActionCoordinator) : List Call × ActionCoordinator :=
  let r := ac.controller.release_all
  (r.1,
   { ac with
     controller := r.2
     active_movement := none
     is_jumping := false
     is_sprinting := false
     is_sneaking := false
     left_hand_action := none
     right_hand_action := none
     current_mode := "gameplay" })

end ActionCoordinator

/-- The frame operations of claim C1: `_handle_movement` on a frame's
movement result, the two mode transitions, and `reset`. -/
inductive CoordEvent where
  | movementEv (m : Option MovementResult)
  | enterMenuEv (open_inventory : Bool)
  | exitMenuEv
  | resetEv
deriving DecidableEq

/-- One coordinator step, discarding the emitted actuator calls. -/
def coordStep (ac : ActionCoordinator) : CoordEvent → ActionCoordinator
  | .movementEv m => (ac.handle_movement m).2
  | .enterMenuEv oi => (ac.enter_menu_mode oi).2
  | .exitMenuEv => ac.exit_menu_mode.2
  | .resetEv => ac.reset.2

/-- The coordinator state after a sequence of frame operations, from the
initial state (fresh controller, gameplay mode). -/
def runCoord (evs : List CoordEvent) : ActionCoordinator :=
  evs.foldl coordStep {}

/-- The four movement direction keys. -/
def wasdKeys : List String := ["w", "a", "s", "d"]

/-- The inductive invariant for C1: a movement key can only be pressed when
it is the coordinator's recorded active movement. -/
def movementKeyInvariant (ac : ActionCoordinator) : Prop :=
  ∀ k ∈ ac.controller.pressed_keys, k ∈ wasdKeys → ac.active_movement = some k

/-- A pose frame holding a single `nose` landmark at the given x-coordinate
(fixed y and z), for concrete store scenarios. -/
def noseFrameX (x : ℚ) : LandmarksDict :=
  { pose := some [{ name := "nose", x := x, y := 1/2, z := 0, visibility := 1 }] }

/-- A three-frame store (most recent first) whose `nose` advances by `1/30`
in x per frame: positions `1/2`, `1/2 − 1/30`, `1/2 − 2/30`. -/
def c4demoStore : GestureStateManager :=
  { landmark_history := [noseFrameX (1/2), noseFrameX (1/2 - 1/30), noseFrameX (1/2 - 2/30)] }

/-- The reversal count as the specification sentence reads: scan consecutive
triples of y-positions `a, b, c`, counting the middle position when the
incoming delta `b − a` exceeds the threshold in magnitude and its sign
differs from the outgoing delta's sign (and is nonzero). -/
def specReversalCount : List ℚ → ℚ → Nat
  | a :: b :: c :: rest, t =>
      (if |b - a| > t ∧ sgn (b - a) ≠ sgn (c - b) ∧ sgn (b - a) ≠ 0 then 1 else 0)
        + specReversalCount (b :: c :: rest) t
  | _, _ => 0

/-- A pose frame holding a single `nose` landmark at the given y-coordinate. -/
def noseFrameY (y : ℚ) : LandmarksDict :=
  { pose := some [{ name := "nose", x := 1/2, y := y, z := 0, visibility := 1 }] }

/-- The y-value of the sampled oscillating signal at frame offset `i`:
alternating between `0` and `1/10` (amplitude above the `1/20` threshold). -/
def sinusY (i : Nat) : ℚ := if i % 2 = 0 then 0 else 1/10

/-- Fifteen frames of the alternating (sampled-sinusoid) y-signal. -/
def sinusStore : GestureStateManager :=
  { landmark_history := (List.range 15).map (fun i => noseFrameY (sinusY i)) }

/-- Fifteen frames of a flat y-signal. -/
def flatStore : GestureStateManager :=
  { landmark_history := (List.range 15).map (fun _ => noseFrameY (3/10)) }

/-! ## `src/gestures/attack.py` -/

/-- `AttackDetector` state: the `enabled` flag and the `last_click_time` of
its `_state` dictionary. -/
structure AttackDetector where
  enabled : Bool := true
  last_click_time : Option ℚ := none
deriving DecidableEq

namespace AttackDetector

/-- `AttackDetector._get_shoulder_distance`: distance between the current
frame's shoulders, `none` if either is unavailable. -/
def get_shoulder_distance (sm : GestureStateManager) : Option ℚ :=
  match sm.get_landmark_position "left_shoulder",
        sm.get_landmark_position "right_shoulder" with
  | some left_shoulder, some right_shoulder =>
      some (norm3 (vsub right_shoulder left_shoulder))
  | _, _ => none

/-- `AttackDetector.detect` (x-threshold 1.8, y-threshold 0.8, velocity
window 6 frames, click cooldown 0.3 s): the 6-frame right-wrist velocity,
normalized by the shoulder distance (declining below `1e-5`), triggers an
`attack_click` when primarily horizontal and outside the cooldown.  `now` is
the sampled `time.time()`. -/
def detect (d : AttackDetector) (sm : GestureStateManager) (now : ℚ) :
    Option String × AttackDetector :=
  if !d.enabled then (none, d)
  else
    match sm.get_velocity "right_wrist" 6 with
    | none => (none, d)
    | some velocity_vector =>
        match get_shoulder_distance sm with
        | none => (none, d)
        | some shoulder_distance =>
            if shoulder_distance < 1/100000 then (none, d)
            else
              let normalized_velocity := vdivQ velocity_vector shoulder_distance
              let x_velocity := |normalized_velocity.1|
              let y_velocity := |normalized_velocity.2.1|
              if ¬ (x_velocity > 1.8 ∧ y_velocity < 0.8) then (none, d)
              else
                match d.last_click_time with
                | some last_click_time =>
                    if now - last_click_time < 0.3 then (none, d)
                    else (some "attack_click", { d with last_click_time := some now })
                | none => (some "attack_click", { d with last_click_time := some now })

end AttackDetector

/-- One frame of the main loop as the attack detector sees it: append the
snapshot to the store, then run `detect`. -/
def attackStep (st : AttackDetector × GestureStateManager)
    (frame : LandmarksDict × ℚ) : Option String × (AttackDetector × GestureStateManager) :=
  let sm := st.2.update (some frame.1) frame.2
  let r := st.1.detect sm frame.2
  (r.1, (r.2, sm))

/-- Fold of `attackStep` over a frame sequence, collecting the per-frame
results. -/
def runAttack : AttackDetector × GestureStateManager → List (LandmarksDict × ℚ) →
    List (Option String) × (AttackDetector × GestureStateManager)
  | st, [] => ([], st)
  | st, f :: rest =>
      let r := attackStep st f
      let rr := runAttack r.2 rest
      (r.1 :: rr.1, rr.2)

/-- The C6 scenario frame at index `k`: shoulders `0.4` apart, right wrist
advancing by `(2/75, 1/750, 0)` per frame, so that the 6-frame wrist velocity
divided by the shoulder distance is exactly `(2.0, 0.1, 0)`. -/
def attackFrame (k : Nat) : LandmarksDict :=
  { pose := some
      [{ name := "left_shoulder", x := 3/10, y := 1/2, z := 0, visibility := 1 },
       { name := "right_shoulder", x := 7/10, y := 1/2, z := 0, visibility := 1 },
       { name := "right_wrist", x := 1/10 + (k : ℚ) * (2/75),
         y := 1/2 + (k : ℚ) * (1/750), z := 0, visibility := 1 }] }

/-- The C6 scenario frames with their `time.time()` stamps, from frame `k`
for `n` frames at 30 fps (frame `k` at time `k/30`). -/
def attackFramesFrom : Nat → Nat → List (LandmarksDict × ℚ)
  | _, 0 => []
  | k, n + 1 => (attackFrame k, (k : ℚ) / 30) :: attackFramesFrom (k + 1) n

/-- Sixteen frames of the C6 scenario. -/
def attackScenario : List (LandmarksDict × ℚ) := attackFramesFrom 0 16

/-- The store contents after the first `k + 1` scenario frames. -/
def attackStoreAt : Nat → GestureStateManager
  | 0 => ({} : GestureStateManager).update (some (attackFrame 0)) ((0 : ℚ) / 30)
  | k + 1 => (attackStoreAt k).update (some (attackFrame (k + 1))) (((k + 1 : Nat) : ℚ) / 30)

/-! ## `src/gestures/mining.py` -/

/-- The per-frame numeric inputs that `MiningDetector.detect` reads from the
store and numpy, present exactly when `get_velocity('right_wrist', 3)` is
non-`None`: the velocity magnitude (`np.linalg.norm(velocity_vector)`), the
signed forearm-axis projection (`_compute_directional_velocity`), the
normalized fingertip-spread area (`_get_hand_spread_area`, `None` when hand
landmarks are missing), and the store's
`is_oscillating('right_wrist', 0.07, 15, 2)` answer. -/
structure MiningSignals where
  velocity : ℚ
  directional_velocity : ℚ
  hand_spread : Option ℚ := none
  oscillating : Bool := false
deriving DecidableEq

/-- One frame's input to the mining detector: the signals (absent when the
wrist velocity query answers `None`) and the sampled `time.time()`. -/
structure MiningFrame where
  signals : Option MiningSignals := none
  now : ℚ := 0
deriving DecidableEq

/-- `MiningDetector` state (`self._state` plus `enabled`). -/
structure MiningDetector where
  enabled : Bool := true
  is_holding : Bool := false
  click_count : Nat := 0
  last_click_time : Option ℚ := none
  last_velocity : ℚ := 0
  last_direction : Option Int := none
  direction_change_count : Nat := 0
  sequence_start_time : Option ℚ := none
  last_spike_time : Option ℚ := none
deriving DecidableEq

/-- Python truthiness of an optional float: `None` and `0.0` are falsy. -/
def truthyTime : Option ℚ → Bool
  | none => false
  | some t => t ≠ 0

namespace MiningDetector

/-- `MiningDetector._reset_direction_tracking`. -/
def reset_direction_tracking (d : MiningDetector) : MiningDetector :=
  { d with last_direction := none, direction_change_count := 0,
           sequence_start_time := none, last_spike_time := none }

/-- `MiningDetector._handle_tracking_lost`: emit `mining_stop_hold` exactly
when a hold was active, and clear the streak/click state. -/
def handle_tracking_lost (d : MiningDetector) : Option String × MiningDetector :=
  let stop_action : Option String := if d.is_holding then some "mining_stop_hold" else none
  let d1 := if d.is_holding then { d with is_holding := false } else d
  let d2 := reset_direction_tracking d1
  (stop_action, { d2 with click_count := 0, last_click_time := none, last_velocity := 0 })

/-- `MiningDetector.detect` (velocity threshold 0.4, directional threshold
0.25, hold after 2 direction changes within 1.2 s, streak reset 1.5 s, single
-click cooldown 0.25 s, grace 0.35 s, open/closed areas 0.55/0.45). -/
def detect (d : MiningDetector) (f : MiningFrame) : Option String × MiningDetector :=
  if !d.enabled then (none, d)
  else
    match f.signals with
    | none => handle_tracking_lost d
    | some sig =>
        let hand_is_open : Bool := match sig.hand_spread with
          | some hs => decide (hs ≥ 0.55)
          | none => false
        let hand_is_closed : Bool := match sig.hand_spread with
          | some hs => decide (hs ≤ 0.45)
          | none => false
        let velocity := sig.velocity
        let d := { d with last_velocity := velocity }
        let current_time := f.now
        let direction : Int :=
          if sig.directional_velocity > 0.25 then 1
          else if sig.directional_velocity < -0.25 then -1
          else 0
        let velocity_spike : Bool := decide (velocity > 0.4) && decide (direction ≠ 0)
        if d.is_holding && hand_is_open then
          (some "mining_stop_hold",
           { (reset_direction_tracking { d with is_holding := false }) with
             click_count := 0, last_click_time := none, last_spike_time := none })
        else if velocity_spike && (hand_is_open || !hand_is_closed) then
          let d := reset_direction_tracking d
          (none, { d with last_spike_time := some current_time, last_velocity := velocity })
        else if velocity_spike then
          let d :=
            match d.last_spike_time with
            | none => { d with sequence_start_time := some current_time }
            | some last_spike_time =>
                if current_time - last_spike_time > 1.5 then
                  { (reset_direction_tracking d) with sequence_start_time := some current_time }
                else if (match d.sequence_start_time with
                         | some s => decide (current_time - s > 1.2)
                         | none => false) then
                  { (reset_direction_tracking d) with sequence_start_time := some current_time }
                else d
          let d := { d with last_spike_time := some current_time }
          let d :=
            match d.last_direction with
            | none => { d with last_direction := some direction }
            | some last_direction =>
                if direction ≠ last_direction then
                  { d with direction_change_count := d.direction_change_count + 1,
                           last_direction := some direction }
                else d
          if d.is_holding then (some "mining_continue_hold", d)
          else
            let sequence_start :=
              match d.sequence_start_time with
              | some s => if s = 0 then current_time else s
              | none => current_time
            if d.direction_change_count ≥ 2 ∧ current_time - sequence_start ≤ 1.2 then
              let d := { d with is_holding := true, click_count := 0,
                                last_click_time := some current_time }
              let d := reset_direction_tracking d
              (some "mining_start_hold", { d with last_spike_time := some current_time })
            else if direction > 0 then
              match d.last_click_time with
              | none =>
                  (some "mining_click",
                   { d with last_click_time := some current_time, click_count := 1 })
              | some last_click_time =>
                  if current_time - last_click_time ≥ 0.25 then
                    (some "mining_click",
                     { d with last_click_time := some current_time, click_count := 1 })
                  else (none, d)
            else (none, d)
        else if d.is_holding then
          if (match d.last_spike_time with
              | some ls => decide (current_time - ls ≤ 0.35)
              | none => false) then
            (some "mining_continue_hold", d)
          else if ¬ sig.oscillating then
            (some "mining_stop_hold",
             reset_direction_tracking
               { d with is_holding := false, click_count := 0, last_click_time := none })
          else (some "mining_continue_hold", d)
        else
          let d :=
            if truthyTime d.last_click_time then
              match d.last_click_time with
              | some lct =>
                  if current_time - lct > 0.6 * 2 then
                    { d with click_count := 0, last_click_time := none }
                  else d
              | none => d
            else d
          let d :=
            if truthyTime d.last_spike_time then
              match d.last_spike_time with
              | some ls => if current_time - ls > 1.5 then reset_direction_tracking d else d
              | none => d
            else d
          (none, d)

end MiningDetector

/-- Fold of the mining detector over a frame sequence. -/
def runMining : MiningDetector → List MiningFrame →
    List (Option String) × MiningDetector
  | d, [] => ([], d)
  | d, f :: rest =>
      let r := d.detect f
      let rr := runMining r.2 rest
      (r.1 :: rr.1, rr.2)

/-! ## `src/gestures/shield.py` -/

/-- Rational stand-in for `tan(35°)` (≈ 0.70021), the horizontal-angle
tolerance: the source condition `abs(degrees(arctan2(−dy, |dx|))) ≤ 35` is
equivalent to `|dy| ≤ tan(35°)·|dx|`.  No theorem depends on the constant's
exact value. -/
def tan35deg : ℚ := 70021/100000

/-- `ShieldDetector` state: `enabled` and `is_blocking`. -/
structure ShieldDetector where
  enabled : Bool := true
  is_blocking : Bool := false
deriving DecidableEq

namespace ShieldDetector

/-- `ShieldDetector._is_forearm_horizontal` (tolerance 35°), in the
equivalent algebraic form `|dy| ≤ tan(35°)·|dx|`. -/
def is_forearm_horizontal (elbow_pos wrist_pos : Vec3) : Bool :=
  let dx := wrist_pos.1 - elbow_pos.1
  let dy := wrist_pos.2.1 - elbow_pos.2.1
  |dy| ≤ tan35deg * |dx|

/-- `ShieldDetector._is_wrist_forward`: `shoulder.z − wrist.z ≥ 0.10`. -/
def is_wrist_forward (shoulder_pos wrist_pos : Vec3) : Bool :=
  shoulder_pos.2.2 - wrist_pos.2.2 ≥ 0.10

/-- `ShieldDetector._is_at_chest_height`: `|shoulder.y − wrist.y| ≤ 0.15`. -/
def is_at_chest_height (shoulder_pos wrist_pos : Vec3) : Bool :=
  |shoulder_pos.2.1 - wrist_pos.2.1| ≤ 0.15

/-- `ShieldDetector.detect`: all three conditions on the current-frame left
shoulder/elbow/wrist drive the start/hold/stop machine; a missing landmark
stops an active block.  Results are reduced to the action string (the debug
payload fields are omitted). -/
def detect (d : ShieldDetector) (sm : GestureStateManager) :
    Option String × ShieldDetector :=
  if !d.enabled then (none, d)
  else
    match sm.get_landmark_position "left_shoulder" 0,
          sm.get_landmark_position "left_elbow" 0,
          sm.get_landmark_position "left_wrist" 0 with
    | some shoulder_pos, some elbow_pos, some wrist_pos =>
        let is_blocking_position :=
          is_forearm_horizontal elbow_pos wrist_pos &&
          is_wrist_forward shoulder_pos wrist_pos &&
          is_at_chest_height shoulder_pos wrist_pos
        if is_blocking_position then
          if !d.is_blocking then (some "shield_start", { d with is_blocking := true })
          else (some "shield_hold", d)
        else
          if d.is_blocking then (some "shield_stop", { d with is_blocking := false })
          else (none, d)
    | _, _, _ =>
        if d.is_blocking then (some "shield_stop", { d with is_blocking := false })
        else (none, d)

end ShieldDetector

/-- Fold of the shield detector over a sequence of store states. -/
def runShield : ShieldDetector → List GestureStateManager →
    List (Option String) × ShieldDetector
  | d, [] => ([], d)
  | d, sm :: rest =>
      let r := d.detect sm
      let rr := runShield r.2 rest
      (r.1 :: rr.1, rr.2)

/-- The landmark-absence condition of the shield detector: at least one of
the three required left-arm landmarks is missing from the current frame. -/
def shieldLandmarksAbsent (sm : GestureStateManager) : Prop :=
  sm.get_landmark_position "left_shoulder" 0 = none ∨
  sm.get_landmark_position "left_elbow" 0 = none ∨
  sm.get_landmark_position "left_wrist" 0 = none

/-! ## `src/gestures/menuclose.py` -/

/-- `MenuCloseDetector` state: `enabled` and the cooldown counter. -/
structure MenuCloseDetector where
  enabled : Bool := true
  cooldown_counter : Nat := 0
deriving DecidableEq

namespace MenuCloseDetector

/-- `MenuCloseDetector._get_shoulder_width`: x–y-plane distance between the
current frame's shoulders. -/
def get_shoulder_width (sm : GestureStateManager) : Option ℚ :=
  match sm.get_landmark_position "left_shoulder" 0,
        sm.get_landmark_position "right_shoulder" 0 with
  | some left_shoulder, some right_shoulder =>
      let dx := right_shoulder.1 - left_shoulder.1
      let dy := right_shoulder.2.1 - left_shoulder.2.1
      some (ratSqrt (dx * dx + dy * dy))
  | _, _ => none

/-- `MenuCloseDetector._get_normalized_velocity`: the left-wrist velocity
(window 3) divided by the shoulder width, returned as
`(velocity_x, velocity_magnitude)`; the division happens for every non-`None`
width, with no near-zero guard. -/
def get_normalized_velocity (sm : GestureStateManager) : Option (ℚ × ℚ) :=
  match get_shoulder_width sm with
  | none => none
  | some shoulder_width =>
      match sm.get_velocity "left_wrist" 3 with
      | none => none
      | some velocity =>
          let velocity_normalized := vdivQ velocity shoulder_width
          some (velocity_normalized.1, norm3 velocity_normalized)

/-- `MenuCloseDetector._get_x_displacement` (window 5). -/
def get_x_displacement (sm : GestureStateManager) : Option ℚ :=
  if sm.landmark_history.length < 5 then none
  else
    match get_shoulder_width sm with
    | none => none
    | some shoulder_width =>
        match sm.get_landmark_position "left_wrist" 0,
              sm.get_landmark_position "left_wrist" 4 with
        | some current_pos, some past_pos =>
            some ((current_pos.1 - past_pos.1) / shoulder_width)
        | _, _ => none

/-- `MenuCloseDetector.detect` (velocity ratio 0.15, displacement ratio 0.9,
cooldown 30 frames); result reduced to the action string (the debug payload
fields are omitted). -/
def detect (d : MenuCloseDetector) (sm : GestureStateManager) :
    Option String × MenuCloseDetector :=
  if !d.enabled then (none, d)
  else if d.cooldown_counter > 0 then
    (none, { d with cooldown_counter := d.cooldown_counter - 1 })
  else
    match get_normalized_velocity sm with
    | none => (none, d)
    | some (velocity_x, velocity_magnitude) =>
        if velocity_magnitude < 0.15 then (none, d)
        else if velocity_x ≤ 0 then (none, d)
        else
          match get_x_displacement sm with
          | none => (none, d)
          | some x_displacement =>
              if x_displacement ≤ 0 ∨ |x_displacement| < 0.9 then (none, d)
              else (some "menu_close", { d with cooldown_counter := 30 })

end MenuCloseDetector

/-- One frame of the C8 counterexample: shoulders only `10⁻⁶` apart (a
degenerate, near-zero scale reference) and the left wrist at
`1/2 − i/30` (moving right-to-left in user view at `1/30` per frame). -/
def degenFrame (i : Nat) : LandmarksDict :=
  { pose := some
      [{ name := "left_shoulder", x := 3/10, y := 1/2, z := 0, visibility := 1 },
       { name := "right_shoulder", x := 3/10 + 1/1000000, y := 1/2, z := 0,
         visibility := 1 },
       { name := "left_wrist", x := 1/2 - (i : ℚ)/30, y := 1/2, z := 0,
         visibility := 1 }] }

/-- Five frames (most recent first) of the degenerate-scale swipe. -/
def degenerateScaleStore : GestureStateManager :=
  { landmark_history := [degenFrame 0, degenFrame 1, degenFrame 2, degenFrame 3, degenFrame 4] }

/-- A six-frame store with the same degenerate `10⁻⁶` shoulder width and a
static right wrist, exercising the attack detector's scale guard. -/
def tinyShoulderFrame : LandmarksDict :=
  { pose := some
      [{ name := "left_shoulder", x := 3/10, y := 1/2, z := 0, visibility := 1 },
       { name := "right_shoulder", x := 3/10 + 1/1000000, y := 1/2, z := 0,
         visibility := 1 },
       { name := "right_wrist", x := 1/2, y := 1/2, z := 0, visibility := 1 }] }

/-- Six identical degenerate-scale frames. -/
def tinyShoulderStore : GestureStateManager :=
  { landmark_history := [tinyShoulderFrame, tinyShoulderFrame, tinyShoulderFrame,
      tinyShoulderFrame, tinyShoulderFrame, tinyShoulderFrame] }

/-! ## `src/gestures/movement.py` -/

/-- A deque append with a maximum length: append right, evict left. -/
def dqAppend {α : Type} (l : List α) (x : α) (maxlen : Nat) : List α :=
  let l2 := l ++ [x]
  l2.drop (l2.length - maxlen)

/-- `MovementState`, the IDLE ↔ WALKING hysteresis machine. -/
structure MovementState where
  current_state : String := "IDLE"
  state_timer : Nat := 0
  last_leg_motion_score : ℚ := 0
  stable_frame_count : Nat := 0
deriving DecidableEq

/-- `MovementState.update` (enter 0.28, exit 0.12, 3 stable frames,
stability threshold 0.5): returns whether the machine is now WALKING and the
updated machine. -/
def MovementState.update (ms : MovementState) (leg_motion_score : ℚ) :
    Bool × MovementState :=
  let ms := { ms with state_timer := ms.state_timer + 1 }
  let ms :=
    if |leg_motion_score - ms.last_leg_motion_score| < 0.5 then
      { ms with stable_frame_count := ms.stable_frame_count + 1 }
    else { ms with stable_frame_count := 0 }
  let ms := { ms with last_leg_motion_score := leg_motion_score }
  if ms.current_state = "IDLE" then
    if leg_motion_score > 0.28 ∧ ms.stable_frame_count ≥ 3 then
      (true, { ms with current_state := "WALKING", state_timer := 0 })
    else (false, ms)
  else if ms.current_state = "WALKING" then
    if leg_motion_score < 0.12 ∧ ms.stable_frame_count ≥ 3 then
      (false, { ms with current_state := "IDLE", state_timer := 0 })
    else (true, ms)
  else (false, ms)

/-- `MovementDetector` state (thresholds are the constructor defaults). -/
structure MovementDetector where
  enabled : Bool := true
  movement_state : MovementState := {}
  leg_motion_history : List ℚ := []
  lean_history : List (Option String) := []
  anti_phase_history : List Nat := []
  scale_factor : Option ℚ := none
  lean_enter_threshold : ℚ := 0.025
  lean_exit_threshold : ℚ := 0.012
  lean_deadzone : ℚ := 0.010
  lean_cooldown_timer : Nat := 0
  last_lean_detected : Option String := none
deriving DecidableEq

/-- The visibility score `_get_landmark_visibility` extracts: the first
matching pose entry's visibility, `0.0` otherwise. -/
def findVisibility : List Landmark → String → ℚ
  | [], _ => 0
  | lm :: rest, nm => if lm.name = nm then lm.visibility else findVisibility rest nm

/-- `MovementDetector._get_landmark_visibility`. -/
def landmark_visibility (landmarks_dict : LandmarksDict) (landmark_name : String) : ℚ :=
  findVisibility (groupLandmarks landmarks_dict.pose) landmark_name

/-- The loop of `_check_visibility` over the landmark names: the first
visibility below `0.7` fails the check. -/
def checkVisList (landmarks_dict : LandmarksDict) : List String → Bool
  | [] => true
  | nm :: rest =>
      if landmark_visibility landmarks_dict nm < 0.7 then false
      else checkVisList landmarks_dict rest

namespace MovementDetector

/-- `MovementDetector._check_visibility` against the most recent frame. -/
def check_visibility (sm : GestureStateManager) (landmark_names : List String) : Bool :=
  match sm.landmark_history.head? with
  | none => false
  | some landmarks_dict => checkVisList landmarks_dict landmark_names

/-- `MovementDetector._get_best_leg_landmarks`: ankles, then knees, then
hips; `none` embeds the Python `(None, None, False)`. -/
def get_best_leg_landmarks (sm : GestureStateManager) :
    Option (String × String × Bool) :=
  if check_visibility sm ["left_ankle", "right_ankle"] then
    some ("left_ankle", "right_ankle", false)
  else if check_visibility sm ["left_knee", "right_knee"] then
    some ("left_knee", "right_knee", true)
  else if check_visibility sm ["left_hip", "right_hip"] then
    some ("left_hip", "right_hip", true)
  else none

/-- `MovementDetector._calculate_y_range`: the max − min of the collected
present y-coordinates over the window, `0` when fewer than half the window
is available. -/
def calculate_y_range (sm : GestureStateManager) (landmark_name : String)
    (window_frames : Nat) : ℚ :=
  let y_positions := (List.range (min window_frames sm.landmark_history.length)).filterMap
    (fun i => (sm.get_landmark_position landmark_name i).map (fun p => p.2.1))
  if y_positions.length < window_frames / 2 then 0
  else
    (y_positions.foldl max (y_positions.headD 0))
      - (y_positions.foldl min (y_positions.headD 0))

/-- `MovementDetector._compute_scale_factor`: torso height (nose to mid-hip
distance), `none` when a landmark is missing or the height is below `0.1`. -/
def compute_scale_factor (sm : GestureStateManager) : Option ℚ :=
  match sm.get_landmark_position "nose", sm.get_landmark_position "left_hip",
        sm.get_landmark_position "right_hip" with
  | some nose, some left_hip, some right_hip =>
      let mid_hip : Vec3 := ((left_hip.1 + right_hip.1) / 2,
        (left_hip.2.1 + right_hip.2.1) / 2, (left_hip.2.2 + right_hip.2.2) / 2)
      let torso_height := norm3 (vsub nose mid_hip)
      if torso_height < 0.1 then none else some torso_height
  | _, _, _ => none

/-- `MovementDetector._detect_leg_motion` (window 5, y-range window 15,
deadzones 0.04/0.015, anti-phase window 5 with min ratio 0.6, smoothing
window 5).  Reads the cached `scale_factor`; `detect` only calls it with the
factor set, so the `getD` default is never reached from `detect`.  The
returned score is the smoothed average (the history is non-empty right after
the append, so the source's `len > 0` branch is always the one taken). -/
def detect_leg_motion (d : MovementDetector) (sm : GestureStateManager) :
    ℚ × MovementDetector :=
  let scale := d.scale_factor.getD 0
  match get_best_leg_landmarks sm with
  | none => (0, d)
  | some (left_name, right_name, _) =>
      match sm.get_velocity left_name 5, sm.get_velocity right_name 5 with
      | some left_vel, some right_vel =>
          let left_vy_raw := left_vel.2.1 / scale
          let right_vy_raw := right_vel.2.1 / scale
          let left_vy := |left_vy_raw|
          let right_vy := |right_vy_raw|
          let avg_vertical_speed := (left_vy + right_vy) / 2
          let left_range := calculate_y_range sm left_name 15
          let right_range := calculate_y_range sm right_name 15
          let avg_range := (left_range + right_range) / 2
          let normalized_speed := avg_vertical_speed
          let normalized_range := avg_range / scale
          let sr : ℚ × ℚ :=
            if normalized_speed < 0.04 ∧ normalized_range < 0.015 then (0, 0)
            else (normalized_speed, normalized_range)
          let velocity_component := sr.1 * 8
          let range_component := sr.2 * 4
          let leg_motion_score := (velocity_component + range_component) / 2
          let opposite_sign : Bool :=
            if left_vy_raw * right_vy_raw < 0 ∧ left_vy ≥ 0.04 ∧ right_vy ≥ 0.04 then
              true
            else false
          let ap2 := dqAppend d.anti_phase_history (if opposite_sign then 1 else 0) 5
          let leg_motion_score :=
            if ap2.length ≥ max 3 (5 / 2) then
              if ((ap2.sum : ℚ) / (ap2.length : ℚ)) < 0.6 then 0 else leg_motion_score
            else leg_motion_score
          let lh2 := dqAppend d.leg_motion_history leg_motion_score 5
          let smoothed_score :=
            if lh2.length > 0 then lh2.sum / (lh2.length : ℚ) else leg_motion_score
          (smoothed_score,
           { d with anti_phase_history := ap2, leg_motion_history := lh2 })
      | _, _ => (0, d)

/-- The lean hysteresis of `_detect_torso_lean_simple`: deadzone, then
enter/exit thresholds relative to the previously detected lean. -/
def lean_hysteresis (d : MovementDetector) (magnitude : ℚ) (direction : String) :
    Option String :=
  if magnitude < d.lean_deadzone then none
  else
    match d.last_lean_detected with
    | none => if magnitude ≥ d.lean_enter_threshold then some direction else none
    | some prev =>
        if direction = prev then
          if magnitude ≥ d.lean_exit_threshold then some prev else none
        else
          if magnitude ≥ d.lean_enter_threshold then some direction else none

/-- The 3-consecutive-frame temporal smoothing of
`_detect_torso_lean_simple`: the latest lean when the last three history
entries agree, `None` otherwise. -/
def lean_smoothed (lean_history : List (Option String)) : Option String :=
  if lean_history.length ≥ 3 then
    match lean_history.reverse with
    | a :: b :: c :: _ => if a = b ∧ b = c then a else none
    | _ => none
  else none

/-- `MovementDetector._detect_torso_lean_simple` (hysteresis on the
shoulder-midpoint / hip-midpoint x-displacement normalized by the cached
scale, 3-frame temporal smoothing).  Early exits (missing landmark, failed
visibility) skip the history append, as in the source. -/
def detect_torso_lean_simple (d : MovementDetector) (sm : GestureStateManager) :
    Option String × MovementDetector :=
  let scale := d.scale_factor.getD 0
  match sm.get_landmark_position "left_shoulder", sm.get_landmark_position "right_shoulder",
        sm.get_landmark_position "left_hip", sm.get_landmark_position "right_hip" with
  | some left_shoulder, some right_shoulder, some left_hip, some right_hip =>
      if ¬ check_visibility sm
          ["left_shoulder", "right_shoulder", "left_hip", "right_hip"] then (none, d)
      else
        let shoulder_mid_x := (left_shoulder.1 + right_shoulder.1) / 2
        let hip_mid_x := (left_hip.1 + right_hip.1) / 2
        let displacement := (shoulder_mid_x - hip_mid_x) / scale
        let magnitude := |displacement|
        let direction := if displacement > 0 then "left" else "right"
        let lean := lean_hysteresis d magnitude direction
        let lh2 := dqAppend d.lean_history lean 5
        (lean_smoothed lh2, { d with lean_history := lh2 })
  | _, _, _, _ => (none, d)

/-- The lean-cooldown bookkeeping of `detect` (10 frames after a lean
ends). -/
def lean_cooldown_step (d : MovementDetector) (torso_lean : Option String) :
    MovementDetector :=
  if d.last_lean_detected ≠ none ∧ torso_lean = none then
    { d with lean_cooldown_timer := 10 }
  else if torso_lean ≠ none then { d with lean_cooldown_timer := 0 }
  else if d.lean_cooldown_timer > 0 then
    { d with lean_cooldown_timer := d.lean_cooldown_timer - 1 }
  else d

/-- `MovementDetector.detect`: requires 5 frames of history; computes the
torso-height scale factor only when it is not already cached (`if
self.scale_factor is None`); runs lean detection, the lean-cooldown
bookkeeping, leg-motion scoring and the IDLE/WALKING machine. -/
def detect (d : MovementDetector) (sm : GestureStateManager) :
    Option MovementResult × MovementDetector :=
  if !d.enabled then (none, d)
  else if sm.landmark_history.length < 5 then (none, d)
  else
    let d := match d.scale_factor with
      | none => { d with scale_factor := compute_scale_factor sm }
      | some _ => d
    match d.scale_factor with
    | none => (none, d)
    | some _ =>
        let r1 := detect_torso_lean_simple d sm
        let torso_lean := r1.1
        let d := lean_cooldown_step r1.2 torso_lean
        let d := { d with last_lean_detected := torso_lean }
        let r2 := detect_leg_motion d sm
        let d := r2.2
        let leg_motion_score := if d.lean_cooldown_timer > 0 then 0 else r2.1
        let r3 := d.movement_state.update leg_motion_score
        let is_walking := r3.1
        let d := { d with movement_state := r3.2 }
        let result : Option MovementResult :=
          if is_walking || torso_lean.isSome then
            some { is_walking := is_walking, left_thumb_back := false,
                   torso_lean := torso_lean }
          else none
        (result, d)

end MovementDetector

/-- Modelled from the spec sentence of C7 ("the body-scale reference …
recomputed from that frame's landmarks: no detector applies a threshold
normalized by a scale value computed from an earlier frame"): the movement
detector with any cached scale discarded, so the reference is recomputed
from the current frame on every call. -/
def movement_detect_freshscale (d : MovementDetector) (sm : GestureStateManager) :
    Option MovementResult × MovementDetector :=
  MovementDetector.detect { d with scale_factor := none } sm

/-- The C7 frame: shoulder midpoint x = 1/2, hip midpoint x = 491/1000 (a
torso-lean displacement of 9/1000), torso height 1/2, all landmarks fully
visible, legs static. -/
def c7Frame : LandmarksDict :=
  { pose := some
      [{ name := "nose", x := 491/1000, y := 6/5, z := 0, visibility := 1 },
       { name := "left_shoulder", x := 2/5, y := 1/2, z := 0, visibility := 1 },
       { name := "right_shoulder", x := 3/5, y := 1/2, z := 0, visibility := 1 },
       { name := "left_hip", x := 391/1000, y := 7/10, z := 0, visibility := 1 },
       { name := "right_hip", x := 591/1000, y := 7/10, z := 0, visibility := 1 },
       { name := "left_ankle", x := 2/5, y := 9/10, z := 0, visibility := 1 },
       { name := "right_ankle", x := 3/5, y := 9/10, z := 0, visibility := 1 }] }

/-- Five identical C7 frames. -/
def c7Store : GestureStateManager :=
  { landmark_history := [c7Frame, c7Frame, c7Frame, c7Frame, c7Frame] }

/-- The C7 detector state: a session-cached scale factor of `1` (from an
earlier, camera-near posture), two frames of detected left lean. -/
def c7Detector : MovementDetector :=
  { scale_factor := some 1
    lean_history := [some "left", some "left"]
    last_lean_detected := some "left" }

/-! ## `ActionCoordinator.get_status` and the controller's method table -/

/-- The record that `ActionCoordinator.get_status` builds. -/
structure StatusRecord where
  mode : String
  movement : Option String
  jumping : Bool
  sprinting : Bool
  sneaking : Bool
  left_hand : Option String
  right_hand : Option String
  pressed_keys : List String
  pressed_buttons : List String
  recent_actions : List String
deriving DecidableEq

/-- `ActionCoordinator.get_status`: building the status dictionary calls
`controller.get_pressed_keys()`, `controller.get_pressed_buttons()` and
`controller.get_recent_actions()`.  Each is a Python attribute lookup on the
controller object, raising `AttributeError` when the name is not defined by
the controller's class; `methods` is that class's method table.  The
`recent_actions` value is modeled as the empty list: no class in
`src/controls/keyboard_mouse.py` defines `get_recent_actions`, so the `.ok`
branch is unreachable with the repository's `MinecraftController`. -/
def ActionCoordinator.get_status (ac : ActionCoordinator) (methods : List String) :
    Except String StatusRecord :=
  if "get_pressed_keys" ∉ methods then .error "AttributeError: get_pressed_keys"
  else if "get_pressed_buttons" ∉ methods then .error "AttributeError: get_pressed_buttons"
  else if "get_recent_actions" ∉ methods then .error "AttributeError: get_recent_actions"
  else .ok
    { mode := ac.current_mode
      movement := ac.active_movement
      jumping := ac.is_jumping
      sprinting := ac.is_sprinting
      sneaking := ac.is_sneaking
      left_hand := ac.left_hand_action
      right_hand := ac.right_hand_action
      pressed_keys := ac.controller.get_pressed_keys
      pressed_buttons := ac.controller.get_pressed_buttons
      recent_actions := [] }

/-! ### Controller state lemmas -/

theorem mem_insertName {l : List String} {k x : String} :
    x ∈ insertName l k ↔ x ∈ l ∨ x = k := by
  unfold insertName
  split
  · next h =>
      constructor
      · exact Or.inl
      · rintro (hx | rfl)
        · exact hx
        · exact h
  · simp

theorem mem_removeName {l : List String} {k x : String} :
    x ∈ removeName l k ↔ x ∈ l ∧ x ≠ k := by
  simp [removeName, List.mem_filter]

theorem press_key_pressed (s : GameController) (k : String) :
    (s.press_key k).2.pressed_keys = insertName s.pressed_keys k := by
  unfold GameController.press_key
  split
  · next h => simp [insertName, h]
  · next h => simp [insertName, h]

theorem press_key_buttons (s : GameController) (k : String) :
    (s.press_key k).2.pressed_buttons = s.pressed_buttons := by
  unfold GameController.press_key
  split <;> rfl

theorem release_key_pressed (s : GameController) (k : String) :
    (s.release_key k).2.pressed_keys = removeName s.pressed_keys k := by
  unfold GameController.release_key
  split
  · next h =>
    simp only
    rw [removeName, List.filter_eq_self.mpr]
    intro a ha
    simp only [ne_eq, decide_eq_true_eq]
    rintro rfl
    exact h ha
  · rfl

theorem release_key_buttons (s : GameController) (k : String) :
    (s.release_key k).2.pressed_buttons = s.pressed_buttons := by
  unfold GameController.release_key
  split <;> rfl

theorem release_key_calls (s : GameController) (k : String) :
    ∀ c ∈ (s.release_key k).1, c = Call.release_key_call k := by
  unfold GameController.release_key
  split <;> simp

theorem tap_key_pressed (s : GameController) (k : String) :
    (s.tap_key k).2.pressed_keys = removeName s.pressed_keys k := by
  unfold GameController.tap_key
  simp only [release_key_pressed, press_key_pressed]
  unfold insertName
  split
  · rfl
  · simp [removeName, List.filter_append]

theorem stop_moving_pressed (g : GameController) :
    (g.stop_moving).2.pressed_keys =
      removeName (removeName (removeName (removeName g.pressed_keys "w") "a") "s") "d" := by
  simp [GameController.stop_moving, release_key_pressed]

theorem mem_stop_moving_pressed {g : GameController} {k : String} :
    k ∈ (g.stop_moving).2.pressed_keys ↔
      k ∈ g.pressed_keys ∧ k ≠ "w" ∧ k ≠ "a" ∧ k ≠ "s" ∧ k ≠ "d" := by
  rw [stop_moving_pressed]
  simp only [mem_removeName]
  tauto

theorem stop_moving_calls (g : GameController) :
    ∀ c ∈ (g.stop_moving).1, c.isReleaseKey = true := by
  unfold GameController.stop_moving
  simp only [List.mem_append]
  intro c hc
  rcases hc with ((hc | hc) | hc) | hc
  · rw [release_key_calls g "w" c hc]; rfl
  · rw [release_key_calls _ "a" c hc]; rfl
  · rw [release_key_calls _ "s" c hc]; rfl
  · rw [release_key_calls _ "d" c hc]; rfl

theorem releaseKeysLoop_pressed :
    ∀ (ks : List String) (s : GameController), s.pressed_keys ⊆ ks →
      (s.releaseKeysLoop ks).2.pressed_keys = [] ∧
      (s.releaseKeysLoop ks).2.pressed_buttons = s.pressed_buttons := by
  intro ks
  induction ks with
  | nil =>
      intro s hs
      exact ⟨List.subset_nil.mp hs, rfl⟩
  | cons k rest ih =>
      intro s hs
      unfold GameController.releaseKeysLoop
      simp only
      have hsub : (s.release_key k).2.pressed_keys ⊆ rest := by
        intro x hx
        rw [release_key_pressed] at hx
        rcases mem_removeName.mp hx with ⟨hxl, hxk⟩
        rcases List.mem_cons.mp (hs hxl) with rfl | h2
        · exact absurd rfl hxk
        · exact h2
      have := ih (s.release_key k).2 hsub
      exact ⟨this.1, this.2.trans (release_key_buttons s k)⟩

theorem releaseButtonsLoop_pressed :
    ∀ (bs : List String) (s : GameController),
      (s.releaseButtonsLoop bs).2.pressed_keys = s.pressed_keys := by
  intro bs
  induction bs with
  | nil => intro s; rfl
  | cons b rest ih =>
      intro s
      unfold GameController.releaseButtonsLoop
      simp only
      rw [ih]
      unfold GameController.release_mouse
      split <;> rfl

theorem release_all_pressed (s : GameController) :
    (s.release_all).2.pressed_keys = [] := by
  unfold GameController.release_all
  simp only
  rw [releaseButtonsLoop_pressed]
  exact (releaseKeysLoop_pressed s.pressed_keys s (fun _ h => h)).1

theorem mem_pressMovementKey {g : GameController} {new k : String}
    (hk : k ∈ (ActionCoordinator.pressMovementKey g new).2.pressed_keys) :
    k ∈ g.pressed_keys ∨ k = new := by
  unfold ActionCoordinator.pressMovementKey at hk
  split at hk
  · next he =>
      simp only [GameController.move_forward, press_key_pressed] at hk
      rcases mem_insertName.mp hk with h1 | h1
      · exact Or.inl h1
      · exact Or.inr (h1.trans he.symm)
  · split at hk
    · next he =>
        simp only [GameController.move_backward, press_key_pressed] at hk
        rcases mem_insertName.mp hk with h1 | h1
        · exact Or.inl h1
        · exact Or.inr (h1.trans he.symm)
    · split at hk
      · next he =>
          simp only [GameController.move_left, press_key_pressed] at hk
          rcases mem_insertName.mp hk with h1 | h1
          · exact Or.inl h1
          · exact Or.inr (h1.trans he.symm)
      · split at hk
        · next he =>
            simp only [GameController.move_right, press_key_pressed] at hk
            rcases mem_insertName.mp hk with h1 | h1
            · exact Or.inl h1
            · exact Or.inr (h1.trans he.symm)
        · exact Or.inl hk

theorem not_wasd_after_stop_moving {g : GameController} {k : String}
    (hk : k ∈ (g.stop_moving).2.pressed_keys) (hww : k ∈ wasdKeys) : False := by
  rcases mem_stop_moving_pressed.mp hk with ⟨_, hw, ha, hs, hd⟩
  simp only [wasdKeys, List.mem_cons, List.mem_singleton] at hww
  rcases hww with rfl | rfl | rfl | rfl | h0
  · exact hw rfl
  · exact ha rfl
  · exact hs rfl
  · exact hd rfl
  · exact (List.not_mem_nil _) h0

theorem enter_menu_controller_pressed (ac : ActionCoordinator) (oi : Bool)
    (h : ¬ ac.current_mode = "menu") :
    ((ac.enter_menu_mode oi).2).controller.pressed_keys = [] := by
  unfold ActionCoordinator.enter_menu_mode
  rw [if_neg h]
  cases oi
  · simpa using release_all_pressed ac.controller
  · simp only
    have : (ac.controller.release_all.2.open_inventory).2.pressed_keys = [] := by
      rw [GameController.open_inventory, tap_key_pressed, release_all_pressed]
      rfl
    simpa using this

theorem exit_menu_controller_pressed (ac : ActionCoordinator) :
    ((ac.exit_menu_mode).2).controller.pressed_keys = [] := by
  have h1 : (ac.controller.release_all.2.tap_key "esc").2.pressed_keys = [] := by
    rw [tap_key_pressed, release_all_pressed]
    rfl
  by_cases hm : ac.current_mode = "menu"
  · simp only [ActionCoordinator.exit_menu_mode, hm, if_pos rfl]
    exact h1
  · simp only [ActionCoordinator.exit_menu_mode, if_neg hm]
    exact h1

theorem reset_controller_pressed (ac : ActionCoordinator) :
    ((ac.reset).2).controller.pressed_keys = [] := by
  unfold ActionCoordinator.reset
  simpa using release_all_pressed ac.controller

/-! ### Claim C1 -/

theorem coordStep_preserves_invariant (ac : ActionCoordinator) (ev : CoordEvent)
    (h : movementKeyInvariant ac) : movementKeyInvariant (coordStep ac ev) := by
  cases ev with
  | movementEv m =>
      cases m with
      | none =>
          simp only [coordStep, ActionCoordinator.handle_movement]
          split
          · intro k hk hww
            simp only at hk
            exact (not_wasd_after_stop_moving hk hww).elim
          · exact h
      | some mr =>
          simp only [coordStep, ActionCoordinator.handle_movement]
          split
          · intro k hk hww
            simp only at hk
            rcases mem_pressMovementKey hk with hold | rfl
            · exact (not_wasd_after_stop_moving hold hww).elim
            · rfl
          · exact h
  | enterMenuEv oi =>
      simp only [coordStep]
      by_cases hm : ac.current_mode = "menu"
      · unfold ActionCoordinator.enter_menu_mode
        rw [if_pos hm]
        exact h
      · intro k hk hww
        rw [enter_menu_controller_pressed ac oi hm] at hk
        exact absurd hk (List.not_mem_nil _)
  | exitMenuEv =>
      simp only [coordStep]
      intro k hk hww
      rw [exit_menu_controller_pressed ac] at hk
      exact absurd hk (List.not_mem_nil _)
  | resetEv =>
      simp only [coordStep]
      intro k hk hww
      rw [reset_controller_pressed ac] at hk
      exact absurd hk (List.not_mem_nil _)

theorem foldl_coordStep_invariant :
    ∀ (evs : List CoordEvent) (ac : ActionCoordinator), movementKeyInvariant ac →
      movementKeyInvariant (evs.foldl coordStep ac) := by
  intro evs
  induction evs with
  | nil => intro ac h; exact h
  | cons ev rest ih =>
      intro ac h
      rw [List.foldl_cons]
      exact ih _ (coordStep_preserves_invariant ac ev h)

theorem runCoord_invariant (evs : List CoordEvent) :
    movementKeyInvariant (runCoord evs) := by
  unfold runCoord
  exact foldl_coordStep_invariant evs {} (fun k hk _ => absurd hk (List.not_mem_nil _))

theorem movementKeyFor_mem_wasd (m : MovementResult) :
    ActionCoordinator.movementKeyFor m ∈ wasdKeys := by
  unfold ActionCoordinator.movementKeyFor
  split
  · simp [wasdKeys]
  · split
    · simp [wasdKeys]
    · split
      · simp [wasdKeys]
      · simp [wasdKeys]

theorem pressMovementKey_calls (g : GameController) (new : String)
    (hmem : new ∈ wasdKeys) (hnp : new ∉ g.pressed_keys) :
    (ActionCoordinator.pressMovementKey g new).1 = [Call.press_key_call new] := by
  simp only [wasdKeys, List.mem_cons, List.mem_singleton] at hmem
  rcases hmem with rfl | rfl | rfl | rfl | h0
  · simp [ActionCoordinator.pressMovementKey, GameController.move_forward,
      GameController.press_key, hnp]
  · simp [ActionCoordinator.pressMovementKey, GameController.move_left,
      GameController.press_key, hnp]
  · simp [ActionCoordinator.pressMovementKey, GameController.move_backward,
      GameController.press_key, hnp]
  · simp [ActionCoordinator.pressMovementKey, GameController.move_right,
      GameController.press_key, hnp]
  · exact absurd h0 (List.not_mem_nil _)

/-- C1: over every sequence of frame inputs processed by the coordinator
(`_handle_movement`, the mode transitions, `reset`), at most one of the
movement direction keys `w`/`a`/`s`/`d` is in the controller's pressed-key
set; and on a direction change, `_handle_movement` emits the releases of the
old movement keys strictly before the press of the new key. -/
theorem C1_single_movement_key_and_release_first :
    (∀ evs : List CoordEvent, ∀ k₁ ∈ (runCoord evs).controller.pressed_keys,
        ∀ k₂ ∈ (runCoord evs).controller.pressed_keys,
        k₁ ∈ wasdKeys → k₂ ∈ wasdKeys → k₁ = k₂) ∧
    (∀ (ac : ActionCoordinator) (m : MovementResult),
        some (ActionCoordinator.movementKeyFor m) ≠ ac.active_movement →
        ∃ rs, (ac.handle_movement (some m)).1
            = rs ++ [Call.press_key_call (ActionCoordinator.movementKeyFor m)] ∧
          ∀ c ∈ rs, c.isReleaseKey = true) := by
  constructor
  · intro evs k1 h1 k2 h2 hw1 hw2
    have hi := runCoord_invariant evs
    exact Option.some.inj ((hi k1 h1 hw1).symm.trans (hi k2 h2 hw2))
  · intro ac m hne
    refine ⟨(ac.controller.stop_moving).1, ?_, stop_moving_calls ac.controller⟩
    unfold ActionCoordinator.handle_movement
    simp only [if_pos hne]
    rw [pressMovementKey_calls _ _ (movementKeyFor_mem_wasd m)
      (fun hmem => not_wasd_after_stop_moving hmem (movementKeyFor_mem_wasd m))]

/-- Witness for C1: a run pressing a movement key satisfies the invariant's
hypotheses, and a fresh coordinator receiving a forward movement result
performs releases before the single press of `w`. -/
theorem C1_witness :
    ("w" ∈ (runCoord [CoordEvent.movementEv (some {})]).controller.pressed_keys ∧
       "w" = "w") ∧
    (∃ rs, (({} : ActionCoordinator).handle_movement (some {})).1
        = rs ++ [Call.press_key_call (ActionCoordinator.movementKeyFor {})] ∧
      ∀ c ∈ rs, c.isReleaseKey = true) :=
  ⟨⟨by decide,
    C1_single_movement_key_and_release_first.1 [CoordEvent.movementEv (some {})]
      "w" (by decide) "w" (by decide) (by decide) (by decide)⟩,
   C1_single_movement_key_and_release_first.2 {} {} (by decide)⟩

/-! ### Claim C3 -/

/-- C3: a press of a key/button already in the pressed set issues no actuator
call and leaves the state unchanged, and a release of a key/button not in the
pressed set issues no actuator call and leaves the state unchanged, for every
actuation state. -/
theorem C3_press_release_idempotent :
    (∀ (s : GameController) (k : String), k ∈ s.pressed_keys →
        s.press_key k = ([], s)) ∧
    (∀ (s : GameController) (k : String), k ∉ s.pressed_keys →
        s.release_key k = ([], s)) ∧
    (∀ (s : GameController) (b : String), b ∈ s.pressed_buttons →
        s.press_mouse b = ([], s)) ∧
    (∀ (s : GameController) (b : String), b ∉ s.pressed_buttons →
        s.release_mouse b = ([], s)) := by
  refine ⟨?_, ?_, ?_, ?_⟩ <;> intro s k h <;>
    simp [GameController.press_key, GameController.release_key,
      GameController.press_mouse, GameController.release_mouse, h]

/-- Witness for C3 at concrete pressed/unpressed controls. -/
theorem C3_witness :
    (({ pressed_keys := ["w"] } : GameController).press_key "w"
        = ([], { pressed_keys := ["w"] })) ∧
    (({} : GameController).release_key "w" = ([], {})) ∧
    (({ pressed_buttons := ["left"] } : GameController).press_mouse "left"
        = ([], { pressed_buttons := ["left"] })) ∧
    (({} : GameController).release_mouse "left" = ([], {})) :=
  ⟨C3_press_release_idempotent.1 _ "w" (by decide),
   C3_press_release_idempotent.2.1 _ "w" (by decide),
   C3_press_release_idempotent.2.2.1 _ "left" (by decide),
   C3_press_release_idempotent.2.2.2 _ "left" (by decide)⟩

/-! ### Claim C10 -/

/-- C10: `update` with an absent snapshot appends nothing — the landmark
history and timestamps are unchanged, every position/velocity/distance/
oscillation query answers exactly as before, and in particular a present
current-frame position is still reported (no spurious absence). -/
theorem C10_update_absent_preserves_queries :
    (∀ (sm : GestureStateManager) (t : ℚ),
        (sm.update none t).landmark_history = sm.landmark_history ∧
        (sm.update none t).timestamps = sm.timestamps) ∧
    (∀ (sm : GestureStateManager) (t : ℚ) (nm : String) (off : Nat),
        (sm.update none t).get_landmark_position nm off
          = sm.get_landmark_position nm off) ∧
    (∀ (sm : GestureStateManager) (t : ℚ) (nm : String) (w : Nat),
        (sm.update none t).get_velocity nm w = sm.get_velocity nm w) ∧
    (∀ (sm : GestureStateManager) (t : ℚ) (a b : String),
        (sm.update none t).get_landmark_distance a b = sm.get_landmark_distance a b) ∧
    (∀ (sm : GestureStateManager) (t : ℚ) (nm : String) (th : ℚ) (w p : Nat),
        (sm.update none t).is_oscillating nm th w p = sm.is_oscillating nm th w p) ∧
    (∀ (sm : GestureStateManager) (t : ℚ) (nm : String) (pos : Vec3),
        sm.get_landmark_position nm 0 = some pos →
        (sm.update none t).get_landmark_position nm 0 = some pos) :=
  by
  refine ⟨?_, ?_, ?_, ?_, ?_, ?_⟩
  · exact fun _ _ => ⟨rfl, rfl⟩
  · exact fun _ _ _ _ => rfl
  · exact fun _ _ _ _ => rfl
  · exact fun _ _ _ _ => rfl
  · exact fun _ _ _ _ _ _ => rfl
  · exact fun _ _ _ _ h => h

/-- Witness for C10's conditional part: a one-frame store keeps answering the
current-frame position after an absent-snapshot update. -/
theorem C10_witness :
    ({ landmark_history :=
         [{ pose := some [{ name := "nose", x := 1/2, y := 1/2, z := 0, visibility := 1 }] }]
       : GestureStateManager }.update none 7).get_landmark_position "nose" 0
      = some (1/2, 1/2, 0) :=
  C10_update_absent_preserves_queries.2.2.2.2.2 _ 7 "nose" (1/2, 1/2, 0) rfl

/-! ### Claim C4 -/

/-- C4: `get_velocity` returns the documented difference quotient
`(position(name,0) − position(name,window−1)) / ((window−1)·dt)`, is absent
exactly when the history is shorter than the window or either endpoint is
absent, and on a landmark advancing by a constant `Δ` per frame it returns
`Δ/dt` exactly, for every window `w ≥ 2`. -/
theorem C4_velocity_difference_quotient :
    (∀ (sm : GestureStateManager) (nm : String) (w : Nat), 2 ≤ w →
        sm.landmark_history.length < w → sm.get_velocity nm w = none) ∧
    (∀ (sm : GestureStateManager) (nm : String) (w : Nat), 2 ≤ w →
        ¬ sm.landmark_history.length < w →
        (sm.get_landmark_position nm 0 = none ∨
          sm.get_landmark_position nm (w - 1) = none) →
        sm.get_velocity nm w = none) ∧
    (∀ (sm : GestureStateManager) (nm : String) (w : Nat) (p0 p1 : Vec3), 2 ≤ w →
        ¬ sm.landmark_history.length < w →
        sm.get_landmark_position nm 0 = some p0 →
        sm.get_landmark_position nm (w - 1) = some p1 →
        sm.get_velocity nm w = some (vdivQ (vsub p0 p1) (sm.dt * ((w : ℚ) - 1)))) ∧
    (∀ (sm : GestureStateManager) (nm : String) (w : Nat) (base Δ : Vec3), 2 ≤ w →
        ¬ sm.landmark_history.length < w →
        (∀ i : Nat, i < w → sm.get_landmark_position nm i = some (vsub base (vnsmul i Δ))) →
        sm.get_velocity nm w = some (vdivQ Δ sm.dt)) := by
  refine ⟨?_, ?_, ?_, ?_⟩
  · intro sm nm w _ hlen
    unfold GestureStateManager.get_velocity
    rw [if_pos hlen]
  · intro sm nm w _ hlen habs
    unfold GestureStateManager.get_velocity
    rw [if_neg hlen]
    rcases habs with h | h
    · rw [h]
    · rw [h]
      rcases hpos : sm.get_landmark_position nm 0 with _ | p <;> rfl
  · intro sm nm w p0 p1 _ hlen h0 h1
    unfold GestureStateManager.get_velocity
    rw [if_neg hlen, h0, h1]
  · intro sm nm w base Δ hw hlen hconst
    have h0 := hconst 0 (by omega)
    have h1 := hconst (w - 1) (by omega)
    unfold GestureStateManager.get_velocity
    rw [if_neg hlen, h0, h1]
    have hwq : ((w : ℚ) - 1) ≠ 0 := by
      have : (2 : ℚ) ≤ (w : ℚ) := by exact_mod_cast hw
      intro hc
      nlinarith
    have hcast : (((w - 1 : Nat)) : ℚ) = (w : ℚ) - 1 := by
      have : 1 ≤ w := by omega
      push_cast [Nat.cast_sub this]
      ring
    simp only [vsub, vnsmul, vdivQ, Option.some.injEq, Prod.mk.injEq]
    rw [hcast]
    have key : ∀ bq dq : ℚ,
        (bq - 0 * dq - (bq - ((w : ℚ) - 1) * dq)) / (sm.dt * ((w : ℚ) - 1)) = dq / sm.dt := by
      intro bq dq
      have : bq - 0 * dq - (bq - ((w : ℚ) - 1) * dq) = ((w : ℚ) - 1) * dq := by ring
      rw [this, mul_comm sm.dt (((w : ℚ) - 1)), mul_div_mul_left _ _ hwq]
    exact ⟨key base.1 Δ.1, key base.2.1 Δ.2.1, key base.2.2 Δ.2.2⟩

/-- Witness for C4: a three-frame store whose `nose` advances by `(1/30, 0, 0)`
per frame yields velocity `(1, 0, 0) = Δ/dt` at window 3, and the degenerate
cases answer absent. -/
theorem C4_witness :
    (({ landmark_history := [] } : GestureStateManager).get_velocity "nose" 3 = none) ∧
    (({ landmark_history :=
          [{ pose := some [{ name := "nose", x := 1/2, y := 1/2, z := 0, visibility := 1 }] },
           { pose := some [] },
           { pose := some [{ name := "nose", x := 1/2 - 2/30, y := 1/2, z := 0, visibility := 1 }] }]
        : GestureStateManager }).get_velocity "nose" 2 = none) ∧
    (c4demoStore.get_velocity "nose" 3
      = some (vdivQ (vsub (1/2, 1/2, 0) (1/2 - 2/30, 1/2, 0)) (c4demoStore.dt * ((3 : ℚ) - 1)))) ∧
    (c4demoStore.get_velocity "nose" 3 = some (vdivQ (1/30, 0, 0) c4demoStore.dt)) :=
  ⟨C4_velocity_difference_quotient.1 _ "nose" 3 (by decide) (by decide),
   C4_velocity_difference_quotient.2.1 _ "nose" 2 (by decide) (by decide)
     (Or.inr rfl),
   C4_velocity_difference_quotient.2.2.1 c4demoStore "nose" 3 _ _ (by decide) (by decide)
     rfl rfl,
   C4_velocity_difference_quotient.2.2.2 c4demoStore "nose" 3 (1/2, 1/2, 0) (1/30, 0, 0)
     (by decide) (by decide)
     (by
       intro i hi
       interval_cases i <;>
         norm_num [c4demoStore, noseFrameX, GestureStateManager.get_landmark_position,
           findLandmark, groupLandmarks, vsub, vnsmul])⟩

/-! ### Claim C5 -/

theorem revAt_cons_succ (a t : ℚ) (ys : List ℚ) (m : Nat) :
    GestureStateManager.revAt (a :: ys) t (m + 2) = GestureStateManager.revAt ys t (m + 1) := by
  unfold GestureStateManager.revAt
  have e1 : m + 2 - 1 = m + 1 := by omega
  have e2 : m + 1 - 1 = m := by omega
  rw [e1, e2]
  simp [List.getD_cons_succ]

theorem countP_range_shift (p : Nat → Bool) :
    ∀ (n s : Nat), (List.range' (s + 1) n).countP p
      = (List.range' s n).countP (fun m => p (m + 1)) := by
  intro n
  induction n with
  | zero => intro s; rfl
  | succ n ih =>
      intro s
      show ((s + 1) :: List.range' (s + 2) n).countP p
        = (s :: List.range' (s + 1) n).countP (fun m => p (m + 1))
      rw [List.countP_cons, List.countP_cons, ih (s + 1)]

theorem revAt_one (a b c t : ℚ) (rest : List ℚ) :
    GestureStateManager.revAt (a :: b :: c :: rest) t 1
      = decide (|b - a| > t ∧ sgn (b - a) ≠ sgn (c - b) ∧ sgn (b - a) ≠ 0) := by
  unfold GestureStateManager.revAt
  simp only [List.getD_cons_succ, List.getD_cons_zero]
  by_cases h : |b - a| > t
  · simp [h]
  · simp [h]

theorem specReversalCount_cons (a b c t : ℚ) (rest : List ℚ) :
    specReversalCount (a :: b :: c :: rest) t
      = (if |b - a| > t ∧ sgn (b - a) ≠ sgn (c - b) ∧ sgn (b - a) ≠ 0 then 1 else 0)
        + specReversalCount (b :: c :: rest) t := rfl

theorem countDirectionChanges_eq_spec :
    ∀ (ys : List ℚ) (t : ℚ),
      GestureStateManager.countDirectionChanges ys t = specReversalCount ys t := by
  intro ys
  induction ys with
  | nil => intro t; rfl
  | cons a ys ih =>
      intro t
      match ys, ih with
      | [], _ => rfl
      | [b], _ => rfl
      | b :: c :: rest, ih =>
          unfold GestureStateManager.countDirectionChanges
          have hlen : (a :: b :: c :: rest).length - 2 = rest.length + 1 := by
            simp [List.length_cons]
          rw [hlen]
          show ((1 : Nat) :: List.range' 2 rest.length).countP
              (GestureStateManager.revAt (a :: b :: c :: rest) t)
            = specReversalCount (a :: b :: c :: rest) t
          rw [List.countP_cons]
          have htail : (List.range' 2 rest.length).countP
              (GestureStateManager.revAt (a :: b :: c :: rest) t)
            = (List.range' 1 rest.length).countP
              (GestureStateManager.revAt (b :: c :: rest) t) := by
            rw [countP_range_shift]
            refine List.countP_congr ?_
            intro m hm
            rcases List.mem_range'_1.mp hm with ⟨h1, _⟩
            obtain ⟨m', rfl⟩ : ∃ m', m = m' + 1 := ⟨m - 1, by omega⟩
            show GestureStateManager.revAt (a :: b :: c :: rest) t (m' + 2) = true
              ↔ GestureStateManager.revAt (b :: c :: rest) t (m' + 1) = true
            rw [revAt_cons_succ a t (b :: c :: rest) m']
          rw [htail]
          have hrec : (List.range' 1 rest.length).countP
              (GestureStateManager.revAt (b :: c :: rest) t)
            = GestureStateManager.countDirectionChanges (b :: c :: rest) t := by
            unfold GestureStateManager.countDirectionChanges
            have : (b :: c :: rest).length - 2 = rest.length := by
              simp [List.length_cons]
            rw [this]
          rw [hrec, ih t, revAt_one, specReversalCount_cons]
          by_cases h : |b - a| > t ∧ sgn (b - a) ≠ sgn (c - b) ∧ sgn (b - a) ≠ 0
          · simp [h, Nat.add_comm]
          · simp [h]

theorem filterMap_all_some {α β : Type} (f : α → β) :
    ∀ (l : List α) (g : α → Option β), (∀ x ∈ l, g x = some (f x)) →
      l.filterMap g = l.map f := by
  intro l
  induction l with
  | nil => intro g _; rfl
  | cons x xs ih =>
      intro g hg
      rw [List.filterMap_cons, hg x (List.mem_cons_self x xs), List.map_cons,
        ih g (fun y hy => hg y (List.mem_cons_of_mem x hy))]

/-- The `is_oscillating` query characterized on a window with the landmark
present in every frame: it is true exactly when the spec-side reversal count
of the y-coordinates reaches `min_peaks`. -/
theorem is_oscillating_characterization (sm : GestureStateManager) (nm : String)
    (t : ℚ) (w p : Nat) (f : Nat → Vec3)
    (hlen : w ≤ sm.landmark_history.length)
    (hpos : ∀ i, i < w → sm.get_landmark_position nm i = some (f i)) :
    (sm.is_oscillating nm t w p = true ↔
      p ≤ specReversalCount ((List.range w).map (fun i => (f i).2.1)) t) := by
  unfold GestureStateManager.is_oscillating
  rw [if_neg (by omega)]
  have hmin : min w sm.landmark_history.length = w := Nat.min_eq_left hlen
  rw [hmin]
  have hfm : (List.range w).filterMap (fun i => sm.get_landmark_position nm i)
      = (List.range w).map f :=
    filterMap_all_some f (List.range w)
      (fun i => sm.get_landmark_position nm i)
      (fun i hi => hpos i (List.mem_range.mp hi))
  rw [hfm]
  rw [if_neg (by
    rw [List.length_map, List.length_range]
    omega)]
  simp only [decide_eq_true_eq]
  rw [List.map_map, countDirectionChanges_eq_spec]
  exact Iff.rfl

/-- C5: with the landmark present across the window, `is_oscillating` is true
exactly when the count of threshold-gated sign reversals of the
frame-to-frame y-delta reaches `min_peaks`; it is true on the sampled
oscillation of amplitude `1/10` (threshold `1/20`) over 15 frames and false
on a flat signal of equal length. -/
theorem C5_is_oscillating :
    (∀ (sm : GestureStateManager) (nm : String) (t : ℚ) (w p : Nat) (f : Nat → Vec3),
        w ≤ sm.landmark_history.length →
        (∀ i, i < w → sm.get_landmark_position nm i = some (f i)) →
        (sm.is_oscillating nm t w p = true ↔
          p ≤ specReversalCount ((List.range w).map (fun i => (f i).2.1)) t)) ∧
    (sinusStore.is_oscillating "nose" (1/20) 15 2 = true) ∧
    (flatStore.is_oscillating "nose" (1/20) 15 2 = false) := by
  refine ⟨is_oscillating_characterization, ?_, ?_⟩
  · rw [is_oscillating_characterization sinusStore "nose" (1/20) 15 2
        (fun i => (1/2, sinusY i, 0))
        (by simp [sinusStore])
        (by
          intro i hi
          interval_cases i <;> rfl)]
    have h1 : |(1/10 : ℚ)| = 1/10 := abs_of_pos (by norm_num)
    have h2 : |(-(1/10) : ℚ)| = 1/10 := by rw [abs_neg]; exact h1
    norm_num [List.range_succ, specReversalCount, sinusY, sgn, h1, h2]
  · rw [Bool.eq_false_iff]
    intro hc
    rw [is_oscillating_characterization flatStore "nose" (1/20) 15 2
        (fun _ => (1/2, 3/10, 0))
        (by simp [flatStore])
        (by
          intro i hi
          interval_cases i <;> rfl)] at hc
    norm_num [List.range_succ, specReversalCount, sgn] at hc

/-- Witness for C5's characterization at the sampled oscillation. -/
theorem C5_witness :
    sinusStore.is_oscillating "nose" (1/20) 15 2 = true ↔
      2 ≤ specReversalCount ((List.range 15).map
        (fun i => (((1/2 : ℚ), sinusY i, (0 : ℚ)) : Vec3).2.1)) (1/20) :=
  C5_is_oscillating.1 sinusStore "nose" (1/20) 15 2 (fun i => (1/2, sinusY i, 0))
    (by simp [sinusStore]) (by intro i hi; interval_cases i <;> rfl)

/-! ### Claim C2 -/

theorem handle_tracking_lost_holding (d : MiningDetector) (h : d.is_holding = true) :
    d.handle_tracking_lost = (some "mining_stop_hold",
      { d with
        is_holding := false
        last_direction := none
        direction_change_count := 0
        sequence_start_time := none
        last_spike_time := none
        click_count := 0
        last_click_time := none
        last_velocity := 0 }) := by
  simp [MiningDetector.handle_tracking_lost, MiningDetector.reset_direction_tracking, h]

theorem handle_tracking_lost_not_holding (d : MiningDetector) (h : d.is_holding = false) :
    d.handle_tracking_lost = (none,
      { d with
        last_direction := none
        direction_change_count := 0
        sequence_start_time := none
        last_spike_time := none
        click_count := 0
        last_click_time := none
        last_velocity := 0 }) := by
  simp [MiningDetector.handle_tracking_lost, MiningDetector.reset_direction_tracking, h]

theorem mining_detect_absent (d : MiningDetector) (t : ℚ) (he : d.enabled = true) :
    d.detect { signals := none, now := t } = d.handle_tracking_lost := by
  simp [MiningDetector.detect, he]

theorem runMining_absent_not_holding :
    ∀ (ts : List ℚ) (d : MiningDetector), d.enabled = true → d.is_holding = false →
      (runMining d (ts.map (fun t => ({ signals := none, now := t } : MiningFrame)))).1
        = ts.map (fun _ => none) := by
  intro ts
  induction ts with
  | nil => intro d he hh; rfl
  | cons t rest ih =>
      intro d he hh
      simp only [List.map_cons, runMining]
      rw [mining_detect_absent d t he, handle_tracking_lost_not_holding d hh]
      simp only [List.cons.injEq]
      exact ⟨trivial, ih _ he hh⟩

theorem shield_detect_absent (d : ShieldDetector) (sm : GestureStateManager)
    (he : d.enabled = true) (habs : shieldLandmarksAbsent sm) :
    d.detect sm
      = (if d.is_blocking then some "shield_stop" else none,
         { d with is_blocking := false }) := by
  obtain ⟨e, b⟩ := d
  have he2 : e = true := he
  subst he2
  unfold ShieldDetector.detect
  unfold shieldLandmarksAbsent at habs
  rcases h1 : sm.get_landmark_position "left_shoulder" 0 with _ | p1 <;>
    rcases h2 : sm.get_landmark_position "left_elbow" 0 with _ | p2 <;>
      rcases h3 : sm.get_landmark_position "left_wrist" 0 with _ | p3 <;>
        cases b <;> simp_all

theorem runShield_absent_not_blocking :
    ∀ (sms : List GestureStateManager) (d : ShieldDetector), d.enabled = true →
      d.is_blocking = false → (∀ s ∈ sms, shieldLandmarksAbsent s) →
      (runShield d sms).1 = sms.map (fun _ => none) := by
  intro sms
  induction sms with
  | nil => intro d he hb _; rfl
  | cons sm rest ih =>
      intro d he hb habs
      simp only [List.map_cons, runShield]
      rw [shield_detect_absent d sm he (habs sm (List.mem_cons_self sm rest)), hb]
      simp only [List.cons.injEq, if_neg, Bool.false_eq_true, not_false_eq_true]
      refine ⟨trivial, ?_⟩
      exact ih _ he rfl (fun s hs => habs s (List.mem_cons_of_mem sm hs))

/-- C2: a detector state with an active continuous hold (mining
`is_holding`, shield `is_blocking`) that loses its required landmarks emits
the terminating action (`mining_stop_hold` / `shield_stop`) on that very
frame, exactly once: every following frame with the landmarks still absent
yields no detection and no further terminating action. -/
theorem C2_tracking_loss_single_stop :
    (∀ (d : MiningDetector) (t : ℚ) (ts : List ℚ),
        d.enabled = true → d.is_holding = true →
        (runMining d (({ signals := none, now := t } : MiningFrame) ::
            ts.map (fun t2 => ({ signals := none, now := t2 } : MiningFrame)))).1
          = some "mining_stop_hold" :: ts.map (fun _ => none)) ∧
    (∀ (d : ShieldDetector) (sm : GestureStateManager) (sms : List GestureStateManager),
        d.enabled = true → d.is_blocking = true →
        shieldLandmarksAbsent sm → (∀ s ∈ sms, shieldLandmarksAbsent s) →
        (runShield d (sm :: sms)).1 = some "shield_stop" :: sms.map (fun _ => none)) := by
  constructor
  · intro d t ts he hh
    simp only [runMining]
    rw [mining_detect_absent d t he, handle_tracking_lost_holding d hh]
    simp only [List.cons.injEq]
    exact ⟨trivial, runMining_absent_not_holding ts _ he rfl⟩
  · intro d sm sms he hb habs habss
    simp only [runShield]
    rw [shield_detect_absent d sm he habs, hb]
    simp only [List.cons.injEq, if_pos]
    exact ⟨trivial, runShield_absent_not_blocking sms _ he rfl habss⟩

/-- Witness for C2: a holding mining detector and a blocking shield detector
over two frames of absent landmarks. -/
theorem C2_witness :
    ((runMining { is_holding := true }
        [{ signals := none, now := 1 }, { signals := none, now := 2 }]).1
      = [some "mining_stop_hold", none]) ∧
    ((runShield { is_blocking := true }
        [({} : GestureStateManager), ({} : GestureStateManager)]).1
      = [some "shield_stop", none]) := by
  constructor
  · have h := C2_tracking_loss_single_stop.1 { is_holding := true } 1 [2] rfl rfl
    simpa using h
  · have h := C2_tracking_loss_single_stop.2 { is_blocking := true } {}
      [({} : GestureStateManager)] rfl rfl (Or.inl rfl)
      (by
        intro s hs
        rw [List.mem_singleton] at hs
        subst hs
        exact Or.inl rfl)
    simpa using h

/-! ### Claim C9 -/

/-- C9 (refuted — code bug): `get_status` fails on every coordinator driving
the repository's `MinecraftController`: the status dictionary calls
`controller.get_recent_actions()`, and neither `GameController` nor
`MinecraftController` defines such a method, so the call raises
`AttributeError` instead of returning the record. -/
theorem C9_get_status_attribute_error (ac : ActionCoordinator) :
    ac.get_status minecraftControllerMethodNames
        = .error "AttributeError: get_recent_actions" ∧
    "get_recent_actions" ∉ minecraftControllerMethodNames ∧
    "get_pressed_keys" ∈ minecraftControllerMethodNames ∧
    "get_pressed_buttons" ∈ minecraftControllerMethodNames :=
  ⟨rfl, by decide, by decide, by decide⟩

/-! ### Claim C6 -/

theorem ratSqrt_mul_self (a : ℚ) : ratSqrt (a * a) = |a| := by
  simp [ratSqrt, Rat.sqrt_eq, abs_mul_abs_self]

theorem norm3_x_axis (x : ℚ) : norm3 (x, 0, 0) = |x| := by
  simp only [norm3]
  have h : (x * x + 0 * 0 + 0 * 0 : ℚ) = x * x := by ring
  rw [h, ratSqrt_mul_self]

/-- Variant of `norm3_x_axis` with the zero pair collapsed to `(0 : ℚ × ℚ)`
(the form simp's `Prod.mk_zero_zero` produces). -/
theorem norm3_x_axis2 (x : ℚ) : norm3 (x, (0 : ℚ × ℚ)) = |x| := norm3_x_axis x

theorem norm3_y_axis (y : ℚ) : norm3 (0, y, 0) = |y| := by
  simp only [norm3]
  have h : ((0 : ℚ) * 0 + y * y + 0 * 0 : ℚ) = y * y := by ring
  rw [h, ratSqrt_mul_self]

theorem runAttack_cons_fst (st : AttackDetector × GestureStateManager)
    (f : LandmarksDict × ℚ) (rest : List (LandmarksDict × ℚ))
    (sm2 : GestureStateManager) (o : Option String) (d2 : AttackDetector)
    (out : List (Option String))
    (hsm : st.2.update (some f.1) f.2 = sm2)
    (h1 : st.1.detect sm2 f.2 = (o, d2))
    (h2 : (runAttack (d2, sm2) rest).1 = out) :
    (runAttack st (f :: rest)).1 = o :: out := by
  simp [runAttack, attackStep, hsm, h1, h2]

/-- C6: from a fresh detector (no prior trigger), a shoulder-normalized
right-wrist velocity of `(2.0, 0.1)` sustained over the 6-frame window
produces exactly one `attack_click` (at the first frame with a full window),
and repeating the same spike every subsequent frame produces no further
click until 0.3 s (9 frames at 30 fps) have elapsed, when it triggers
again. -/
theorem C6_attack_click_cooldown :
    (runAttack ({}, {}) attackScenario).1 =
      [none, none, none, none, none, some "attack_click",
       none, none, none, none, none, none, none, none, some "attack_click", none] := by
  have ha : |(2 : ℚ)/5| = 2/5 := abs_of_pos (by norm_num)
  have ha2 : |(2 : ℚ)| = 2 := abs_of_pos (by norm_num)
  have hb : |(1 : ℚ)/10| = 1/10 := abs_of_pos (by norm_num)
  simp only [attackScenario, attackFramesFrom]
  refine runAttack_cons_fst _ _ _ (attackStoreAt 0) none
    {} _ rfl ?_ ?_
  · simp [AttackDetector.detect, attackStoreAt, GestureStateManager.update,
      GestureStateManager.get_velocity]
  refine runAttack_cons_fst _ _ _ (attackStoreAt 1) none
    {} _ rfl ?_ ?_
  · simp [AttackDetector.detect, attackStoreAt, GestureStateManager.update,
      GestureStateManager.get_velocity]
  refine runAttack_cons_fst _ _ _ (attackStoreAt 2) none
    {} _ rfl ?_ ?_
  · simp [AttackDetector.detect, attackStoreAt, GestureStateManager.update,
      GestureStateManager.get_velocity]
  refine runAttack_cons_fst _ _ _ (attackStoreAt 3) none
    {} _ rfl ?_ ?_
  · simp [AttackDetector.detect, attackStoreAt, GestureStateManager.update,
      GestureStateManager.get_velocity]
  refine runAttack_cons_fst _ _ _ (attackStoreAt 4) none
    {} _ rfl ?_ ?_
  · simp [AttackDetector.detect, attackStoreAt, GestureStateManager.update,
      GestureStateManager.get_velocity]
  refine runAttack_cons_fst _ _ _ (attackStoreAt 5) (some "attack_click")
    { last_click_time := some (1/6) } _ rfl ?_ ?_
  · simp [AttackDetector.detect, AttackDetector.get_shoulder_distance, attackStoreAt,
      GestureStateManager.update, GestureStateManager.get_velocity,
      GestureStateManager.get_landmark_position, GestureStateManager.dt, attackFrame,
      findLandmark, groupLandmarks, vdivQ, vsub]
    norm_num [norm3_x_axis, norm3_x_axis2, ha, ha2, hb]
  refine runAttack_cons_fst _ _ _ (attackStoreAt 6) none
    { last_click_time := some (1/6) } _ rfl ?_ ?_
  · simp [AttackDetector.detect, AttackDetector.get_shoulder_distance, attackStoreAt,
      GestureStateManager.update, GestureStateManager.get_velocity,
      GestureStateManager.get_landmark_position, GestureStateManager.dt, attackFrame,
      findLandmark, groupLandmarks, vdivQ, vsub]
    norm_num [norm3_x_axis, norm3_x_axis2, ha, ha2, hb]
  refine runAttack_cons_fst _ _ _ (attackStoreAt 7) none
    { last_click_time := some (1/6) } _ rfl ?_ ?_
  · simp [AttackDetector.detect, AttackDetector.get_shoulder_distance, attackStoreAt,
      GestureStateManager.update, GestureStateManager.get_velocity,
      GestureStateManager.get_landmark_position, GestureStateManager.dt, attackFrame,
      findLandmark, groupLandmarks, vdivQ, vsub]
    norm_num [norm3_x_axis, norm3_x_axis2, ha, ha2, hb]
  refine runAttack_cons_fst _ _ _ (attackStoreAt 8) none
    { last_click_time := some (1/6) } _ rfl ?_ ?_
  · simp [AttackDetector.detect, AttackDetector.get_shoulder_distance, attackStoreAt,
      GestureStateManager.update, GestureStateManager.get_velocity,
      GestureStateManager.get_landmark_position, GestureStateManager.dt, attackFrame,
      findLandmark, groupLandmarks, vdivQ, vsub]
    norm_num [norm3_x_axis, norm3_x_axis2, ha, ha2, hb]
  refine runAttack_cons_fst _ _ _ (attackStoreAt 9) none
    { last_click_time := some (1/6) } _ rfl ?_ ?_
  · simp [AttackDetector.detect, AttackDetector.get_shoulder_distance, attackStoreAt,
      GestureStateManager.update, GestureStateManager.get_velocity,
      GestureStateManager.get_landmark_position, GestureStateManager.dt, attackFrame,
      findLandmark, groupLandmarks, vdivQ, vsub]
    norm_num [norm3_x_axis, norm3_x_axis2, ha, ha2, hb]
  refine runAttack_cons_fst _ _ _ (attackStoreAt 10) none
    { last_click_time := some (1/6) } _ rfl ?_ ?_
  · simp [AttackDetector.detect, AttackDetector.get_shoulder_distance, attackStoreAt,
      GestureStateManager.update, GestureStateManager.get_velocity,
      GestureStateManager.get_landmark_position, GestureStateManager.dt, attackFrame,
      findLandmark, groupLandmarks, vdivQ, vsub]
    norm_num [norm3_x_axis, norm3_x_axis2, ha, ha2, hb]
  refine runAttack_cons_fst _ _ _ (attackStoreAt 11) none
    { last_click_time := some (1/6) } _ rfl ?_ ?_
  · simp [AttackDetector.detect, AttackDetector.get_shoulder_distance, attackStoreAt,
      GestureStateManager.update, GestureStateManager.get_velocity,
      GestureStateManager.get_landmark_position, GestureStateManager.dt, attackFrame,
      findLandmark, groupLandmarks, vdivQ, vsub]
    norm_num [norm3_x_axis, norm3_x_axis2, ha, ha2, hb]
  refine runAttack_cons_fst _ _ _ (attackStoreAt 12) none
    { last_click_time := some (1/6) } _ rfl ?_ ?_
  · simp [AttackDetector.detect, AttackDetector.get_shoulder_distance, attackStoreAt,
      GestureStateManager.update, GestureStateManager.get_velocity,
      GestureStateManager.get_landmark_position, GestureStateManager.dt, attackFrame,
      findLandmark, groupLandmarks, vdivQ, vsub]
    norm_num [norm3_x_axis, norm3_x_axis2, ha, ha2, hb]
  refine runAttack_cons_fst _ _ _ (attackStoreAt 13) none
    { last_click_time := some (1/6) } _ rfl ?_ ?_
  · simp [AttackDetector.detect, AttackDetector.get_shoulder_distance, attackStoreAt,
      GestureStateManager.update, GestureStateManager.get_velocity,
      GestureStateManager.get_landmark_position, GestureStateManager.dt, attackFrame,
      findLandmark, groupLandmarks, vdivQ, vsub]
    norm_num [norm3_x_axis, norm3_x_axis2, ha, ha2, hb]
  refine runAttack_cons_fst _ _ _ (attackStoreAt 14) (some "attack_click")
    { last_click_time := some (7/15) } _ rfl ?_ ?_
  · simp [AttackDetector.detect, AttackDetector.get_shoulder_distance, attackStoreAt,
      GestureStateManager.update, GestureStateManager.get_velocity,
      GestureStateManager.get_landmark_position, GestureStateManager.dt, attackFrame,
      findLandmark, groupLandmarks, vdivQ, vsub]
    norm_num [norm3_x_axis, norm3_x_axis2, ha, ha2, hb]
  refine runAttack_cons_fst _ _ _ (attackStoreAt 15) none
    { last_click_time := some (7/15) } _ rfl ?_ ?_
  · simp [AttackDetector.detect, AttackDetector.get_shoulder_distance, attackStoreAt,
      GestureStateManager.update, GestureStateManager.get_velocity,
      GestureStateManager.get_landmark_position, GestureStateManager.dt, attackFrame,
      findLandmark, groupLandmarks, vdivQ, vsub]
    norm_num [norm3_x_axis, norm3_x_axis2, ha, ha2, hb]
  rfl

/-! ### Claim C8 -/

theorem attack_detect_degenerate_scale (d : AttackDetector) (sm : GestureStateManager)
    (now : ℚ) (v : Vec3) (sd : ℚ) (he : d.enabled = true)
    (hv : sm.get_velocity "right_wrist" 6 = some v)
    (hs : AttackDetector.get_shoulder_distance sm = some sd)
    (hsd : sd < 1/100000) : d.detect sm now = (none, d) := by
  simp only [AttackDetector.detect, he, hv, hs, Bool.not_true, Bool.false_eq_true, if_false]
  rw [if_pos hsd]

/-- C8 (corrected): the attack detector declines to evaluate a frame whose
shoulder reference is below `1e-5`, but the menu-close detector divides the
wrist velocity by every non-`None` shoulder width, however small — it has no
near-zero guard — and on the degenerate-scale swipe store (width `10⁻⁶`) it
returns a `menu_close` detection instead of declining. -/
theorem C8_scale_guard_amended :
    (∀ (d : AttackDetector) (sm : GestureStateManager) (now : ℚ) (v : Vec3) (sd : ℚ),
        d.enabled = true →
        sm.get_velocity "right_wrist" 6 = some v →
        AttackDetector.get_shoulder_distance sm = some sd →
        sd < 1/100000 →
        d.detect sm now = (none, d)) ∧
    (∀ (sm : GestureStateManager) (w : ℚ) (vel : Vec3),
        MenuCloseDetector.get_shoulder_width sm = some w →
        sm.get_velocity "left_wrist" 3 = some vel →
        MenuCloseDetector.get_normalized_velocity sm
          = some ((vdivQ vel w).1, norm3 (vdivQ vel w))) := by
  constructor
  · exact attack_detect_degenerate_scale
  · intro sm w vel hw hv
    simp [MenuCloseDetector.get_normalized_velocity, hw, hv]

/-- C8 counterexample: on the degenerate-scale store the shoulder width is
`10⁻⁶ < 10⁻⁵` (near zero), yet `MenuCloseDetector.detect` does not decline —
it divides by the near-zero width and returns a `menu_close` detection. -/
theorem C8_counterexample :
    MenuCloseDetector.get_shoulder_width degenerateScaleStore = some (1/1000000) ∧
    ((1 : ℚ)/1000000 < 1/100000) ∧
    (({} : MenuCloseDetector).detect degenerateScaleStore).1 = some "menu_close" := by
  have hsq : ratSqrt (1/1000000000000) = 1/1000000 := by
    rw [show (1/1000000000000 : ℚ) = (1/1000000) * (1/1000000) from by norm_num,
      ratSqrt_mul_self]
    exact abs_of_pos (by norm_num)
  have hbig : |(1000000 : ℚ)| = 1000000 := abs_of_pos (by norm_num)
  have hbig2 : |(400000 : ℚ)/3| = 400000/3 := abs_of_pos (by norm_num)
  refine ⟨?_, by norm_num, ?_⟩
  · simp [MenuCloseDetector.get_shoulder_width, degenerateScaleStore, degenFrame,
      GestureStateManager.get_landmark_position, findLandmark, groupLandmarks]
    norm_num [hsq]
  · simp [MenuCloseDetector.detect, MenuCloseDetector.get_normalized_velocity,
      MenuCloseDetector.get_shoulder_width, MenuCloseDetector.get_x_displacement,
      degenerateScaleStore, degenFrame, GestureStateManager.get_landmark_position,
      GestureStateManager.get_velocity, GestureStateManager.dt,
      findLandmark, groupLandmarks, vdivQ, vsub]
    norm_num [hsq, hbig, hbig2, norm3_x_axis, norm3_x_axis2]

/-- Witness for C8's amended statement: the attack detector declines on the
six-frame degenerate-shoulder store, and the menu-close normalization on the
degenerate store indeed produces a value (by dividing). -/
theorem C8_witness :
    (({} : AttackDetector).detect tinyShoulderStore 0 = (none, {})) ∧
    (MenuCloseDetector.get_normalized_velocity degenerateScaleStore).isSome = true := by
  constructor
  · refine C8_scale_guard_amended.1 {} tinyShoulderStore 0 _ _ rfl rfl rfl ?_
    have habs : |(1 : ℚ)/1000000| = 1/1000000 := abs_of_pos (by norm_num)
    norm_num [vsub, norm3_x_axis, norm3_x_axis2, habs]
  · rw [C8_scale_guard_amended.2 degenerateScaleStore _ _ rfl rfl]
    rfl

/-! ### Claim C7 -/

theorem detect_torso_lean_scale_factor (d : MovementDetector) (sm : GestureStateManager) :
    ((MovementDetector.detect_torso_lean_simple d sm).2).scale_factor = d.scale_factor := by
  unfold MovementDetector.detect_torso_lean_simple
  repeat' split
  all_goals rfl

theorem detect_leg_motion_scale_factor (d : MovementDetector) (sm : GestureStateManager) :
    ((MovementDetector.detect_leg_motion d sm).2).scale_factor = d.scale_factor := by
  unfold MovementDetector.detect_leg_motion
  repeat' split
  all_goals rfl

theorem lean_cooldown_step_scale_factor (d : MovementDetector) (torso_lean : Option String) :
    (MovementDetector.lean_cooldown_step d torso_lean).scale_factor = d.scale_factor := by
  unfold MovementDetector.lean_cooldown_step
  repeat' split
  all_goals rfl

/-- Evaluation shape of `detect` when the scale factor is already cached:
the result is assembled from the torso-lean, cooldown, leg-motion and
state-machine components. -/
theorem detect_eval_cached (d : MovementDetector) (sm : GestureStateManager)
    (tl : Option String × MovementDetector) (lg : Rat × MovementDetector)
    (upd : Bool × MovementState) (v : Rat)
    (hen : d.enabled = true)
    (hlen : ¬ sm.landmark_history.length < 5)
    (hsf : d.scale_factor = some v)
    (htl : MovementDetector.detect_torso_lean_simple d sm = tl)
    (hlg : MovementDetector.detect_leg_motion
      { MovementDetector.lean_cooldown_step tl.2 tl.1 with last_lean_detected := tl.1 } sm
      = lg)
    (hupd : lg.2.movement_state.update (if lg.2.lean_cooldown_timer > 0 then 0 else lg.1)
      = upd) :
    d.detect sm =
      (if upd.1 || tl.1.isSome then
        some { is_walking := upd.1, left_thumb_back := false, torso_lean := tl.1 }
      else none,
      { lg.2 with movement_state := upd.2 }) := by
  unfold MovementDetector.detect
  rw [hsf]
  simp [hen, hlen, hsf, htl, hlg, hupd]

/-- Evaluation shape of `detect` when the scale factor is still unset and is
computed from the current history. -/
theorem detect_eval_fresh (d : MovementDetector) (sm : GestureStateManager)
    (tl : Option String × MovementDetector) (lg : Rat × MovementDetector)
    (upd : Bool × MovementState) (v : Rat)
    (hen : d.enabled = true)
    (hlen : ¬ sm.landmark_history.length < 5)
    (hsf : d.scale_factor = none)
    (hcs : MovementDetector.compute_scale_factor sm = some v)
    (htl : MovementDetector.detect_torso_lean_simple { d with scale_factor := some v } sm
      = tl)
    (hlg : MovementDetector.detect_leg_motion
      { MovementDetector.lean_cooldown_step tl.2 tl.1 with last_lean_detected := tl.1 } sm
      = lg)
    (hupd : lg.2.movement_state.update (if lg.2.lean_cooldown_timer > 0 then 0 else lg.1)
      = upd) :
    d.detect sm =
      (if upd.1 || tl.1.isSome then
        some { is_walking := upd.1, left_thumb_back := false, torso_lean := tl.1 }
      else none,
      { lg.2 with movement_state := upd.2 }) := by
  unfold MovementDetector.detect
  rw [hsf]
  simp only [hcs]
  simp only [htl]
  simp only [hlg]
  simp only [hupd]
  simp [hen, hlen]

set_option maxHeartbeats 1000000 in
theorem c7_detect_run : c7Detector.detect c7Store =
    (none,
     { c7Detector with
         lean_history := [some "left", some "left", none]
         anti_phase_history := [0]
         leg_motion_history := [0]
         lean_cooldown_timer := 10
         last_lean_detected := none
         movement_state := { current_state := "IDLE", state_timer := 1,
                             last_leg_motion_score := 0, stable_frame_count := 1 } }) := by
  have h9 : |(9 : ℚ)/1000| = 9/1000 := abs_of_pos (by norm_num)
  have hr5 : List.range 5 = [0, 1, 2, 3, 4] := rfl
  have htl : MovementDetector.detect_torso_lean_simple c7Detector c7Store
      = (none, { c7Detector with lean_history := [some "left", some "left", none] }) := by
    simp [MovementDetector.detect_torso_lean_simple, MovementDetector.lean_hysteresis,
      MovementDetector.lean_smoothed, MovementDetector.check_visibility, checkVisList,
      landmark_visibility, findVisibility, c7Detector, c7Store, c7Frame,
      GestureStateManager.get_landmark_position, findLandmark, groupLandmarks, dqAppend]
    norm_num [h9]
  have hvl : GestureStateManager.get_velocity c7Store "left_ankle" 5 = some (0, 0, 0) := by
    simp [GestureStateManager.get_velocity, GestureStateManager.get_landmark_position,
      GestureStateManager.dt, c7Store, c7Frame, findLandmark, groupLandmarks, vdivQ, vsub]
  have hvr : GestureStateManager.get_velocity c7Store "right_ankle" 5 = some (0, 0, 0) := by
    simp [GestureStateManager.get_velocity, GestureStateManager.get_landmark_position,
      GestureStateManager.dt, c7Store, c7Frame, findLandmark, groupLandmarks, vdivQ, vsub]
  have hcv : MovementDetector.check_visibility c7Store ["left_ankle", "right_ankle"]
      = true := by
    simp [MovementDetector.check_visibility, checkVisList, landmark_visibility,
      findVisibility, c7Store, c7Frame]
    norm_num
  have hyl : MovementDetector.calculate_y_range c7Store "left_ankle" 15 = 0 := by
    simp [MovementDetector.calculate_y_range, GestureStateManager.get_landmark_position,
      c7Store, c7Frame, findLandmark, groupLandmarks, hr5]
  have hyr : MovementDetector.calculate_y_range c7Store "right_ankle" 15 = 0 := by
    simp [MovementDetector.calculate_y_range, GestureStateManager.get_landmark_position,
      c7Store, c7Frame, findLandmark, groupLandmarks, hr5]
  have hlg : MovementDetector.detect_leg_motion
      { MovementDetector.lean_cooldown_step
          { c7Detector with lean_history := [some "left", some "left", none] } none
        with last_lean_detected := none } c7Store
      = (0,
         { c7Detector with
             lean_history := [some "left", some "left", none]
             anti_phase_history := [0]
             leg_motion_history := [0]
             lean_cooldown_timer := 10
             last_lean_detected := none }) := by
    simp only [MovementDetector.detect_leg_motion, MovementDetector.get_best_leg_landmarks,
      hcv, if_true, hvl, hvr, hyl, hyr]
    simp [MovementDetector.lean_cooldown_step, c7Detector, dqAppend]
  have hupd :
      ({ c7Detector with
           lean_history := [some "left", some "left", none]
           anti_phase_history := [0]
           leg_motion_history := [0]
           lean_cooldown_timer := 10
           last_lean_detected := none } : MovementDetector).movement_state.update
        (if (({ c7Detector with
           lean_history := [some "left", some "left", none]
           anti_phase_history := [0]
           leg_motion_history := [0]
           lean_cooldown_timer := 10
           last_lean_detected := none } : MovementDetector).lean_cooldown_timer > 0 : Prop)
          then 0
          else (0 : Rat))
      = (false, { current_state := "IDLE", state_timer := 1,
                  last_leg_motion_score := 0, stable_frame_count := 1 }) := by
    simp [MovementState.update, c7Detector]
    norm_num
  have h := detect_eval_cached c7Detector c7Store
    (none, { c7Detector with lean_history := [some "left", some "left", none] })
    (0,
     { c7Detector with
         lean_history := [some "left", some "left", none]
         anti_phase_history := [0]
         leg_motion_history := [0]
         lean_cooldown_timer := 10
         last_lean_detected := none })
    (false, { current_state := "IDLE", state_timer := 1,
              last_leg_motion_score := 0, stable_frame_count := 1 })
    1 rfl (by decide) rfl htl hlg hupd
  simpa using h

set_option maxHeartbeats 1000000 in
theorem c7_freshscale_run : MovementDetector.detect { c7Detector with scale_factor := none } c7Store =
    (some { is_walking := false, left_thumb_back := false, torso_lean := some "left" },
     { c7Detector with
         scale_factor := some (1/2)
         lean_history := [some "left", some "left", some "left"]
         anti_phase_history := [0]
         leg_motion_history := [0]
         movement_state := { current_state := "IDLE", state_timer := 1,
                             last_leg_motion_score := 0, stable_frame_count := 1 } }) := by
  have hhalf : |(1 : ℚ)/2| = 1/2 := abs_of_pos (by norm_num)
  have h18 : |(9 : ℚ)/500| = 9/500 := abs_of_pos (by norm_num)
  have hr5 : List.range 5 = [0, 1, 2, 3, 4] := rfl
  have hcs : MovementDetector.compute_scale_factor c7Store = some (1/2) := by
    simp [MovementDetector.compute_scale_factor, GestureStateManager.get_landmark_position,
      c7Store, c7Frame, findLandmark, groupLandmarks, vsub]
    norm_num [hhalf, norm3_y_axis]
  have htl : MovementDetector.detect_torso_lean_simple
      { { c7Detector with scale_factor := none } with scale_factor := some (1/2) } c7Store
      = (some "left",
         { c7Detector with
             scale_factor := some (1/2)
             lean_history := [some "left", some "left", some "left"] }) := by
    simp [MovementDetector.detect_torso_lean_simple, MovementDetector.lean_hysteresis,
      MovementDetector.lean_smoothed, MovementDetector.check_visibility, checkVisList,
      landmark_visibility, findVisibility, c7Detector, c7Store, c7Frame,
      GestureStateManager.get_landmark_position, findLandmark, groupLandmarks, dqAppend]
    norm_num [h18]
  have hvl : GestureStateManager.get_velocity c7Store "left_ankle" 5 = some (0, 0, 0) := by
    simp [GestureStateManager.get_velocity, GestureStateManager.get_landmark_position,
      GestureStateManager.dt, c7Store, c7Frame, findLandmark, groupLandmarks, vdivQ, vsub]
  have hvr : GestureStateManager.get_velocity c7Store "right_ankle" 5 = some (0, 0, 0) := by
    simp [GestureStateManager.get_velocity, GestureStateManager.get_landmark_position,
      GestureStateManager.dt, c7Store, c7Frame, findLandmark, groupLandmarks, vdivQ, vsub]
  have hcv : MovementDetector.check_visibility c7Store ["left_ankle", "right_ankle"]
      = true := by
    simp [MovementDetector.check_visibility, checkVisList, landmark_visibility,
      findVisibility, c7Store, c7Frame]
    norm_num
  have hyl : MovementDetector.calculate_y_range c7Store "left_ankle" 15 = 0 := by
    simp [MovementDetector.calculate_y_range, GestureStateManager.get_landmark_position,
      c7Store, c7Frame, findLandmark, groupLandmarks, hr5]
  have hyr : MovementDetector.calculate_y_range c7Store "right_ankle" 15 = 0 := by
    simp [MovementDetector.calculate_y_range, GestureStateManager.get_landmark_position,
      c7Store, c7Frame, findLandmark, groupLandmarks, hr5]
  have hlg : MovementDetector.detect_leg_motion
      { MovementDetector.lean_cooldown_step
          { c7Detector with
              scale_factor := some (1/2)
              lean_history := [some "left", some "left", some "left"] } (some "left")
        with last_lean_detected := some "left" } c7Store
      = (0,
         { c7Detector with
             scale_factor := some (1/2)
             lean_history := [some "left", some "left", some "left"]
             anti_phase_history := [0]
             leg_motion_history := [0] }) := by
    simp only [MovementDetector.detect_leg_motion, MovementDetector.get_best_leg_landmarks,
      hcv, if_true, hvl, hvr, hyl, hyr]
    simp [MovementDetector.lean_cooldown_step, c7Detector, dqAppend]
  have hupd :
      ({ c7Detector with
           scale_factor := some (1/2)
           lean_history := [some "left", some "left", some "left"]
           anti_phase_history := [0]
           leg_motion_history := [0] } : MovementDetector).movement_state.update
        (if (({ c7Detector with
           scale_factor := some (1/2)
           lean_history := [some "left", some "left", some "left"]
           anti_phase_history := [0]
           leg_motion_history := [0] } : MovementDetector).lean_cooldown_timer > 0 : Prop)
          then 0
          else (0 : Rat))
      = (false, { current_state := "IDLE", state_timer := 1,
                  last_leg_motion_score := 0, stable_frame_count := 1 }) := by
    simp [MovementState.update, c7Detector]
    norm_num
  have h := detect_eval_fresh { c7Detector with scale_factor := none } c7Store
    (some "left",
     { c7Detector with
         scale_factor := some (1/2)
         lean_history := [some "left", some "left", some "left"] })
    (0,
     { c7Detector with
         scale_factor := some (1/2)
         lean_history := [some "left", some "left", some "left"]
         anti_phase_history := [0]
         leg_motion_history := [0] })
    (false, { current_state := "IDLE", state_timer := 1,
              last_leg_motion_score := 0, stable_frame_count := 1 })
    (1/2) rfl (by decide) rfl hcs htl hlg hupd
  simpa using h

/-- C7 (corrected): once set, the movement detector's torso-height scale
factor is never recomputed — `detect` leaves a cached value untouched on
every later frame (and computes it only on a frame where it is still
unset). -/
theorem C7_scale_cached_amended :
    (∀ (d : MovementDetector) (sm : GestureStateManager) (v : ℚ),
        d.scale_factor = some v → ((d.detect sm).2).scale_factor = some v) ∧
    (∀ (d : MovementDetector) (sm : GestureStateManager),
        d.enabled = true → 5 ≤ sm.landmark_history.length → d.scale_factor = none →
        ((d.detect sm).2).scale_factor = MovementDetector.compute_scale_factor sm) := by
  constructor
  · intro d sm v hv
    unfold MovementDetector.detect
    rw [hv]
    cases he : d.enabled
    · simp [he, hv]
    · by_cases hlen : sm.landmark_history.length < 5
      · simp [he, hlen, hv]
      · simp [he, hlen, hv, detect_leg_motion_scale_factor,
          detect_torso_lean_scale_factor, lean_cooldown_step_scale_factor]
  · intro d sm he hlen hv
    unfold MovementDetector.detect
    rw [hv]
    rcases hc : MovementDetector.compute_scale_factor sm with _ | sf
    · simp [he, Nat.not_lt.mpr hlen, hc]
    · simp [he, Nat.not_lt.mpr hlen, hc, detect_leg_motion_scale_factor,
        detect_torso_lean_scale_factor, lean_cooldown_step_scale_factor]

/-- C7 counterexample: with a stale cached scale of `1` and a current frame
whose true torso height is `1/2`, the detector reports no movement, while
the spec-side variant that recomputes the scale from the current frame
reports a left torso lean — so detection does use a scale computed from an
earlier frame and is not invariant to a mid-session distance change. -/
theorem C7_counterexample :
    ((c7Detector.detect c7Store).1 = none) ∧
    ((movement_detect_freshscale c7Detector c7Store).1
      = some { is_walking := false, left_thumb_back := false, torso_lean := some "left" }) ∧
    c7Detector.detect c7Store ≠ movement_detect_freshscale c7Detector c7Store := by
  have h2 : movement_detect_freshscale c7Detector c7Store
      = (some { is_walking := false, left_thumb_back := false, torso_lean := some "left" },
         { c7Detector with
             scale_factor := some (1/2)
             lean_history := [some "left", some "left", some "left"]
             anti_phase_history := [0]
             leg_motion_history := [0]
             movement_state := { current_state := "IDLE", state_timer := 1,
                                 last_leg_motion_score := 0, stable_frame_count := 1 } }) :=
    c7_freshscale_run
  refine ⟨by rw [c7_detect_run], by rw [h2], ?_⟩
  rw [c7_detect_run, h2]
  simp

/-- Witness for C7's amended statement: the cached scale `1` survives a
detect call on the C7 store, and a fresh detector caches the torso height
computed from the current frame. -/
theorem C7_witness :
    (((c7Detector.detect c7Store).2).scale_factor = some 1) ∧
    (((({} : MovementDetector).detect c7Store).2).scale_factor
      = MovementDetector.compute_scale_factor c7Store) :=
  ⟨C7_scale_cached_amended.1 c7Detector c7Store 1 rfl,
   C7_scale_cached_amended.2 {} c7Store rfl (by decide) rfl⟩

end MCC
